import Mathlib

/-!
Verification of the change-detection and queued-reconciliation engine of the
Spotify-Auto-Playlist repository (src/sync.py, src/utils/db.py,
src/utils/spotify.py) against its natural-language specification.

The relational row store (SQLite tables in src/utils/db.py) is embedded as a
Lean structure of row lists; each db.py function becomes a pure Lean function
on that structure.  The engine loops of src/sync.py become folds over those
functions, with the remote service (spotipy) abstracted as oracle parameters.
-/

namespace SpotifySync

/-! ## Python string primitives

Python's `sep in s`, `s.split(sep)` (single-character separators only are
used by the sources), `s.startswith(p)` and `s.lower()` translated over
character lists. -/

/-- `startsWithList l p` is Python `"".join(l).startswith("".join(p))`. -/
def startsWithList : List Char → List Char → Bool
  | _, [] => true
  | [], _ :: _ => false
  | a :: as_, b :: bs => a = b && startsWithList as_ bs

/-- `hasSublist l p` is Python `p in l` (substring containment). -/
def hasSublist : List Char → List Char → Bool
  | l, p =>
    startsWithList l p ||
      match l with
      | [] => false
      | _ :: xs => hasSublist xs p

/-- Python `s.split(c)` for a one-character separator `c`. -/
def splitChar (c : Char) : List Char → List (List Char)
  | [] => [[]]
  | x :: xs =>
    let r := splitChar c xs
    if x = c then [] :: r
    else
      match r with
      | h :: t => (x :: h) :: t
      | [] => [[x]]

/-- Python `needle in hay` on strings. -/
def strContains (hay needle : String) : Bool :=
  hasSublist hay.toList needle.toList

/-- Python `f"...{x}..."` interpolation of an optional string (`None` prints
as the literal text `None`). -/
def pyShowOpt : Option String → String
  | some s => s
  | none => "None"

/-! ## Data model (src/utils/db.py, CREATE TABLE statements)

One structure per table, one field per column.  `TEXT` columns that the code
can leave `NULL` are `Option String`; primary-key id columns and the `NOT
NULL` columns are `String`; `INTEGER` booleans are `Bool`. -/

/-- A row of the `playlists` table; also the shape of the playlist snapshot
dict consumed by `db.insert_playlist` (both carry the same ten columns,
`id` and `name` assumed present on remote snapshots). -/
structure PlaylistRow where
  id : String
  name : String
  description : Option String
  owner_id : Option String
  snapshot_id : Option String
  isPublic : Bool
  collaborative : Bool
  tracks_total : Option Int
  href : Option String
  uri : Option String
deriving DecidableEq, Repr

/-- A row of the `queue` table (auto-increment id and `detected_at` timestamp
elided; `db.get_queue` orders by detection time descending, modelled as
reverse arrival order under a strictly increasing clock). -/
structure QueueRow where
  playlist_id : String
  playlist_name : String
  change_type : String
  old_snapshot_id : Option String
  new_snapshot_id : Option String
deriving DecidableEq, Repr

/-- A row of the `action_log` table (auto-increment id and timestamp elided). -/
structure LogRow where
  action_type : String
  entity_type : String
  entity_id : Option String
  entity_name : Option String
  reason : String
  details : Option String
  success : Bool
  error_message : Option String
deriving DecidableEq, Repr

/-- A row of the `songs` table. -/
structure SongRow where
  id : String
  name : String
  duration_ms : Option Int
  explicit : Bool
  popularity : Option Int
  preview_url : Option String
  href : Option String
  uri : Option String
  external_urls : Option String
  album_id : Option String
  album_name : Option String
deriving DecidableEq, Repr

/-- A row of the `artists` table (`genres` already comma-joined). -/
structure ArtistRow where
  id : String
  name : String
  genres : Option String
  popularity : Option Int
  followers_total : Option Int
  href : Option String
  uri : Option String
  external_urls : Option String
deriving DecidableEq, Repr

/-- The whole relational store: the seven tables of `db.create_tables`.
`playlist_songs` and `song_artists` are composite-key junction tables,
kept as pair lists. -/
structure Db where
  playlists : List PlaylistRow
  queue : List QueueRow
  action_log : List LogRow
  songs : List SongRow
  artists : List ArtistRow
  playlist_songs : List (String × String)
  song_artists : List (String × String)
deriving DecidableEq, Repr

/-! ## db.py row-store operations -/

/-- `db.insert_playlist`: `INSERT OR REPLACE INTO playlists` keyed on `id`. -/
def insert_playlist (db : Db) (p : PlaylistRow) : Db :=
  { db with playlists := db.playlists.filter (fun r => !(r.id == p.id)) ++ [p] }

/-- `db.get_playlist_by_id`: `SELECT * FROM playlists WHERE id = ?`. -/
def get_playlist_by_id (db : Db) (playlist_id : String) : Option PlaylistRow :=
  db.playlists.find? (fun r => r.id == playlist_id)

/-- `db.check_playlist_modified`: true when no stored row exists or the stored
`snapshot_id` differs from the current one. -/
def check_playlist_modified (db : Db) (p : PlaylistRow) : Bool :=
  match get_playlist_by_id db p.id with
  | none => true
  | some stored => !(stored.snapshot_id == p.snapshot_id)

/-- `db.get_modified_playlists`. -/
def get_modified_playlists (db : Db) (current : List PlaylistRow) : List PlaylistRow :=
  current.filter (check_playlist_modified db)

/-- `db.get_playlist_snapshot_id`: stored snapshot, or `None` when the row is
absent (note: also `None` when the row exists with a `NULL` snapshot). -/
def get_playlist_snapshot_id (db : Db) (playlist_id : String) : Option String :=
  match get_playlist_by_id db playlist_id with
  | some p => p.snapshot_id
  | none => none

/-- `db.insert_playlist_change`: append one queue row. -/
def insert_playlist_change (db : Db) (playlist_id playlist_name change_type : String)
    (old_snapshot_id new_snapshot_id : Option String) : Db :=
  { db with queue := db.queue ++
      [{ playlist_id := playlist_id, playlist_name := playlist_name,
         change_type := change_type, old_snapshot_id := old_snapshot_id,
         new_snapshot_id := new_snapshot_id }] }

/-- `db.get_queue`: all queue rows, detection time descending (reverse
arrival order). -/
def get_queue (db : Db) : List QueueRow :=
  db.queue.reverse

/-- `db.get_queue_by_id`. -/
def get_queue_by_id (db : Db) (playlist_id : String) : List QueueRow :=
  (db.queue.filter (fun r => r.playlist_id == playlist_id)).reverse

/-- `db.delete_queue`: `DELETE FROM queue WHERE playlist_id = ?`. -/
def delete_queue (db : Db) (playlist_id : String) : Db :=
  { db with queue := db.queue.filter (fun r => !(r.playlist_id == playlist_id)) }

/-- `db.log_action`: append one action-log row. -/
def log_action (db : Db) (action_type entity_type : String)
    (entity_id entity_name : Option String) (reason : String)
    (details : Option String) (success : Bool) (error_message : Option String) : Db :=
  { db with action_log := db.action_log ++
      [{ action_type := action_type, entity_type := entity_type,
         entity_id := entity_id, entity_name := entity_name, reason := reason,
         details := details, success := success, error_message := error_message }] }

/-- `db.insert_artist`: `INSERT OR REPLACE INTO artists` keyed on `id`. -/
def insert_artist (db : Db) (a : ArtistRow) : Db :=
  { db with artists := db.artists.filter (fun r => !(r.id == a.id)) ++ [a] }

/-- `db.delete_artist`. -/
def delete_artist (db : Db) (artist_id : String) : Db :=
  { db with artists := db.artists.filter (fun r => !(r.id == artist_id)) }

/-- `db.insert_song`: `INSERT OR REPLACE INTO songs` keyed on `id`. -/
def insert_song (db : Db) (s : SongRow) : Db :=
  { db with songs := db.songs.filter (fun r => !(r.id == s.id)) ++ [s] }

/-- `db.get_song_by_id`. -/
def get_song_by_id (db : Db) (song_id : String) : Option SongRow :=
  db.songs.find? (fun r => r.id == song_id)

/-- `db.delete_song`. -/
def delete_song (db : Db) (song_id : String) : Db :=
  { db with songs := db.songs.filter (fun r => !(r.id == song_id)) }

/-- `db.insert_playlist_song`: `INSERT OR REPLACE` on the composite primary
key, so re-inserting an existing pair leaves the table unchanged. -/
def insert_playlist_song (db : Db) (playlist_id song_id : String) : Db :=
  if (playlist_id, song_id) ∈ db.playlist_songs then db
  else { db with playlist_songs := db.playlist_songs ++ [(playlist_id, song_id)] }

/-- `db.get_songs_in_playlist`: join of `songs` with `playlist_songs` on the
given playlist id. -/
def get_songs_in_playlist (db : Db) (playlist_id : String) : List SongRow :=
  db.songs.filter (fun s => decide ((playlist_id, s.id) ∈ db.playlist_songs))

/-- `db.delete_playlist_song`. -/
def delete_playlist_song (db : Db) (playlist_id song_id : String) : Db :=
  { db with playlist_songs :=
      db.playlist_songs.filter (fun r => !(r == (playlist_id, song_id))) }

/-- `db.insert_song_artist`: `INSERT OR REPLACE` on the composite key. -/
def insert_song_artist (db : Db) (song_id artist_id : String) : Db :=
  if (song_id, artist_id) ∈ db.song_artists then db
  else { db with song_artists := db.song_artists ++ [(song_id, artist_id)] }

/-- Result dict of `db.sync_playlist_songs`. -/
structure SyncResult where
  added : Nat
  removed : Nat
  songs_added : List String
  songs_removed : List String
deriving DecidableEq, Repr

/-- `db.sync_playlist_songs`: set-reconciliation of playlist membership.
The Python set comprehensions over stored/current ids become deduplicated
lists; the insert and delete loops become folds. -/
def sync_playlist_songs (db : Db) (playlist_id : String) (current_song_ids : List String) :
    Db × SyncResult :=
  let stored_song_ids := ((get_songs_in_playlist db playlist_id).map (fun s => s.id)).dedup
  let current_set := current_song_ids.dedup
  let songs_to_add := current_set.filter (fun c => decide (c ∉ stored_song_ids))
  let songs_to_remove := stored_song_ids.filter (fun s => decide (s ∉ current_set))
  let db := songs_to_add.foldl (fun d sid => insert_playlist_song d playlist_id sid) db
  let db := songs_to_remove.foldl (fun d sid => delete_playlist_song d playlist_id sid) db
  (db, { added := songs_to_add.length, removed := songs_to_remove.length,
         songs_added := songs_to_add, songs_removed := songs_to_remove })

/-! ## C1: set-reconciliation of playlist membership -/

/-- Stored membership of a playlist: the song ids visible through
`db.get_songs_in_playlist` (the join of `songs` and `playlist_songs`). -/
def storedSongIds (db : Db) (playlist_id : String) : List String :=
  (get_songs_in_playlist db playlist_id).map (fun s => s.id)

theorem mem_storedSongIds {db : Db} {pid s : String} :
    s ∈ storedSongIds db pid ↔
      (∃ r ∈ db.songs, r.id = s) ∧ (pid, s) ∈ db.playlist_songs := by
  simp only [storedSongIds, get_songs_in_playlist, List.mem_map, List.mem_filter,
    decide_eq_true_eq]
  constructor
  · rintro ⟨r, ⟨hr, hps⟩, rfl⟩
    exact ⟨⟨r, hr, rfl⟩, hps⟩
  · rintro ⟨⟨r, hr, rfl⟩, hps⟩
    exact ⟨r, ⟨hr, hps⟩, rfl⟩

theorem insert_playlist_song_songs (db : Db) (pid sid : String) :
    (insert_playlist_song db pid sid).songs = db.songs := by
  unfold insert_playlist_song
  split <;> rfl

theorem mem_insert_playlist_song {db : Db} {pid sid : String} {r : String × String} :
    r ∈ (insert_playlist_song db pid sid).playlist_songs ↔
      r ∈ db.playlist_songs ∨ r = (pid, sid) := by
  by_cases h : (pid, sid) ∈ db.playlist_songs
  · simp only [insert_playlist_song, if_pos h]
    constructor
    · exact Or.inl
    · rintro (h1 | rfl)
      · exact h1
      · exact h
  · simp [insert_playlist_song, if_neg h]

theorem delete_playlist_song_songs (db : Db) (pid sid : String) :
    (delete_playlist_song db pid sid).songs = db.songs := rfl

theorem mem_delete_playlist_song {db : Db} {pid sid : String} {r : String × String} :
    r ∈ (delete_playlist_song db pid sid).playlist_songs ↔
      r ∈ db.playlist_songs ∧ r ≠ (pid, sid) := by
  simp [delete_playlist_song, List.mem_filter]

theorem foldl_insert_playlist_song_songs (ids : List String) (db : Db) (pid : String) :
    (ids.foldl (fun d sid => insert_playlist_song d pid sid) db).songs = db.songs := by
  induction ids generalizing db with
  | nil => rfl
  | cons a l ih =>
    simp only [List.foldl_cons]
    rw [ih, insert_playlist_song_songs]

theorem mem_foldl_insert_playlist_song (ids : List String) (db : Db) (pid : String)
    (r : String × String) :
    r ∈ (ids.foldl (fun d sid => insert_playlist_song d pid sid) db).playlist_songs ↔
      r ∈ db.playlist_songs ∨ (r.1 = pid ∧ r.2 ∈ ids) := by
  induction ids generalizing db with
  | nil => simp
  | cons a l ih =>
    obtain ⟨x, y⟩ := r
    simp only [List.foldl_cons, ih, mem_insert_playlist_song, List.mem_cons,
      Prod.mk.injEq]
    tauto

theorem foldl_delete_playlist_song_songs (ids : List String) (db : Db) (pid : String) :
    (ids.foldl (fun d sid => delete_playlist_song d pid sid) db).songs = db.songs := by
  induction ids generalizing db with
  | nil => rfl
  | cons a l ih =>
    simp only [List.foldl_cons]
    rw [ih, delete_playlist_song_songs]

theorem mem_foldl_delete_playlist_song (ids : List String) (db : Db) (pid : String)
    (r : String × String) :
    r ∈ (ids.foldl (fun d sid => delete_playlist_song d pid sid) db).playlist_songs ↔
      r ∈ db.playlist_songs ∧ ¬(r.1 = pid ∧ r.2 ∈ ids) := by
  induction ids generalizing db with
  | nil => simp
  | cons a l ih =>
    obtain ⟨x, y⟩ := r
    simp only [List.foldl_cons, ih, mem_delete_playlist_song, List.mem_cons, ne_eq,
      Prod.mk.injEq]
    tauto

theorem sync_playlist_songs_fst (db : Db) (pid : String) (current : List String) :
    (sync_playlist_songs db pid current).1 =
      (((storedSongIds db pid).dedup.filter
          (fun s => decide (s ∉ current.dedup))).foldl
        (fun d sid => delete_playlist_song d pid sid)
        (((current.dedup.filter
            (fun c => decide (c ∉ (storedSongIds db pid).dedup))).foldl
          (fun d sid => insert_playlist_song d pid sid) db))) := rfl

theorem sync_playlist_songs_snd (db : Db) (pid : String) (current : List String) :
    (sync_playlist_songs db pid current).2 =
      { added := (current.dedup.filter
            (fun c => decide (c ∉ (storedSongIds db pid).dedup))).length,
        removed := ((storedSongIds db pid).dedup.filter
            (fun s => decide (s ∉ current.dedup))).length,
        songs_added := current.dedup.filter
            (fun c => decide (c ∉ (storedSongIds db pid).dedup)),
        songs_removed := (storedSongIds db pid).dedup.filter
            (fun s => decide (s ∉ current.dedup)) } := rfl

theorem mem_songs_to_add {db : Db} {pid s : String} {current : List String} :
    s ∈ current.dedup.filter (fun c => decide (c ∉ (storedSongIds db pid).dedup)) ↔
      s ∈ current ∧ s ∉ storedSongIds db pid := by
  simp [List.mem_filter, List.mem_dedup]

theorem mem_songs_to_remove {db : Db} {pid s : String} {current : List String} :
    s ∈ (storedSongIds db pid).dedup.filter (fun c => decide (c ∉ current.dedup)) ↔
      s ∈ storedSongIds db pid ∧ s ∉ current := by
  simp [List.mem_filter, List.mem_dedup]

/-- After one application of `sync_playlist_songs`, stored membership equals
the current id set, provided every current id has a `songs` row (which the
caller `update_songs` guarantees by upserting each valid track first). -/
theorem sync_playlist_songs_songs_eq (db : Db) (pid : String) (current : List String) :
    (sync_playlist_songs db pid current).1.songs = db.songs := by
  rw [sync_playlist_songs_fst, foldl_delete_playlist_song_songs,
    foldl_insert_playlist_song_songs]

theorem mem_sync_playlist_songs (db : Db) (pid : String) (current : List String)
    (r : String × String) :
    r ∈ (sync_playlist_songs db pid current).1.playlist_songs ↔
      (r ∈ db.playlist_songs ∨ (r.1 = pid ∧ r.2 ∈ current ∧ r.2 ∉ storedSongIds db pid))
        ∧ ¬(r.1 = pid ∧ r.2 ∈ storedSongIds db pid ∧ r.2 ∉ current) := by
  rw [sync_playlist_songs_fst, mem_foldl_delete_playlist_song,
    mem_foldl_insert_playlist_song]
  constructor
  · rintro ⟨h1, h2⟩
    refine ⟨?_, ?_⟩
    · rcases h1 with h1 | ⟨hp, hmem⟩
      · exact Or.inl h1
      · exact Or.inr ⟨hp, mem_songs_to_add.mp hmem⟩
    · rintro ⟨hp, hmem⟩
      exact h2 ⟨hp, mem_songs_to_remove.mpr hmem⟩
  · rintro ⟨h1, h2⟩
    refine ⟨?_, ?_⟩
    · rcases h1 with h1 | ⟨hp, hmem⟩
      · exact Or.inl h1
      · exact Or.inr ⟨hp, mem_songs_to_add.mpr hmem⟩
    · rintro ⟨hp, hmem⟩
      exact h2 ⟨hp, mem_songs_to_remove.mp hmem⟩

theorem storedSongIds_after_sync (db : Db) (pid : String) (current : List String)
    (hC : ∀ c ∈ current, ∃ r ∈ db.songs, r.id = c) (s : String) :
    s ∈ storedSongIds (sync_playlist_songs db pid current).1 pid ↔ s ∈ current := by
  rw [mem_storedSongIds, sync_playlist_songs_songs_eq,
    mem_sync_playlist_songs db pid current (pid, s)]
  constructor
  · rintro ⟨hex, hin, hnot⟩
    rcases hin with hmem | ⟨-, hc, -⟩
    · by_contra hcur
      exact hnot ⟨rfl, mem_storedSongIds.mpr ⟨hex, hmem⟩, hcur⟩
    · exact hc
  · intro hs
    refine ⟨hC s hs, ?_, ?_⟩
    · by_cases hst : s ∈ storedSongIds db pid
      · exact Or.inl (mem_storedSongIds.mp hst).2
      · exact Or.inr ⟨rfl, hs, hst⟩
    · rintro ⟨-, -, hnc⟩
      exact hnc hs

/-- A second application with the same current set is a no-op: nothing to
add, nothing to remove, store unchanged. -/
theorem sync_playlist_songs_noop (db : Db) (pid : String) (current : List String)
    (h1 : ∀ c ∈ current, c ∈ storedSongIds db pid)
    (h2 : ∀ s ∈ storedSongIds db pid, s ∈ current) :
    sync_playlist_songs db pid current =
      (db, { added := 0, removed := 0, songs_added := [], songs_removed := [] }) := by
  have hA : current.dedup.filter (fun c => decide (c ∉ (storedSongIds db pid).dedup)) = [] := by
    rw [List.filter_eq_nil_iff]
    intro a ha
    simp only [List.mem_dedup] at ha
    simp [List.mem_dedup, h1 a ha]
  have hR : (storedSongIds db pid).dedup.filter (fun s => decide (s ∉ current.dedup)) = [] := by
    rw [List.filter_eq_nil_iff]
    intro a ha
    simp only [List.mem_dedup] at ha
    simp [List.mem_dedup, h2 a ha]
  have hfst := sync_playlist_songs_fst db pid current
  have hsnd := sync_playlist_songs_snd db pid current
  rw [hA, hR] at hfst hsnd
  simp only [List.foldl_nil, List.length_nil] at hfst hsnd
  exact Prod.ext hfst hsnd

/-- C1.  Set-reconciliation of playlist membership is correct and idempotent:
one application of `sync_playlist_songs` inserts a `playlist_songs` junction
row exactly for the ids in `C \ S`, deletes one exactly for the ids in
`S \ C`, leaves stored membership equal to `C`, and a second application with
the same current set adds and removes zero rows and leaves the store
unchanged.  The hypothesis that every current id has a `songs` row is the
caller's guarantee (every valid track is upserted before reconciliation). -/
theorem sync_playlist_songs_reconciles (db : Db) (pid : String) (current : List String)
    (hC : ∀ c ∈ current, ∃ r ∈ db.songs, r.id = c) :
    (∀ s, s ∈ (sync_playlist_songs db pid current).2.songs_added ↔
        s ∈ current ∧ s ∉ storedSongIds db pid)
    ∧ (∀ s, s ∈ (sync_playlist_songs db pid current).2.songs_removed ↔
        s ∈ storedSongIds db pid ∧ s ∉ current)
    ∧ (sync_playlist_songs db pid current).2.added =
        (sync_playlist_songs db pid current).2.songs_added.length
    ∧ (sync_playlist_songs db pid current).2.removed =
        (sync_playlist_songs db pid current).2.songs_removed.length
    ∧ (∀ s, s ∈ storedSongIds (sync_playlist_songs db pid current).1 pid ↔ s ∈ current)
    ∧ (sync_playlist_songs (sync_playlist_songs db pid current).1 pid current).2.added = 0
    ∧ (sync_playlist_songs (sync_playlist_songs db pid current).1 pid current).2.removed = 0
    ∧ (sync_playlist_songs (sync_playlist_songs db pid current).1 pid current).1 =
        (sync_playlist_songs db pid current).1 := by
  have hmem := storedSongIds_after_sync db pid current hC
  have hnoop := sync_playlist_songs_noop (sync_playlist_songs db pid current).1 pid current
    (fun c hc => (hmem c).mpr hc) (fun s hs => (hmem s).mp hs)
  refine ⟨?_, ?_, rfl, rfl, hmem, ?_, ?_, ?_⟩
  · intro s
    rw [sync_playlist_songs_snd]
    exact mem_songs_to_add
  · intro s
    rw [sync_playlist_songs_snd]
    exact mem_songs_to_remove
  · rw [hnoop]
  · rw [hnoop]
  · rw [hnoop]

/-- Witness for C1 at a concrete store: playlist `p` currently holds song
`a`; the songs table knows `a` and `b`; the current set is `a, b`. -/
theorem sync_playlist_songs_reconciles_witness :
    (∀ c ∈ ["a", "b"], ∃ r ∈ (Db.mk [] [] []
        [⟨"a", "A", none, false, none, none, none, none, none, none, none⟩,
         ⟨"b", "B", none, false, none, none, none, none, none, none, none⟩]
        [] [("p", "a")] []).songs, r.id = c)
    ∧ (∀ s, s ∈ (sync_playlist_songs (Db.mk [] [] []
        [⟨"a", "A", none, false, none, none, none, none, none, none, none⟩,
         ⟨"b", "B", none, false, none, none, none, none, none, none, none⟩]
        [] [("p", "a")] []) "p" ["a", "b"]).2.songs_added ↔
        s ∈ ["a", "b"] ∧ s ∉ storedSongIds (Db.mk [] [] []
        [⟨"a", "A", none, false, none, none, none, none, none, none, none⟩,
         ⟨"b", "B", none, false, none, none, none, none, none, none, none⟩]
        [] [("p", "a")] []) "p") := by
  refine ⟨by decide, ?_⟩
  exact (sync_playlist_songs_reconciles (Db.mk [] [] []
    [⟨"a", "A", none, false, none, none, none, none, none, none, none⟩,
     ⟨"b", "B", none, false, none, none, none, none, none, none, none⟩]
    [] [("p", "a")] []) "p" ["a", "b"] (by decide)).1

/-! ## sync.py: update_playlists (Fingerprint & Diff Engine)

The loop body of `update_playlists` over `db.get_modified_playlists`:
skip `#auto` playlists with a SKIP audit entry, otherwise enqueue a NEW or
MODIFIED change (branching on whether `db.get_playlist_snapshot_id` returned
`None`) plus an ADD_TO_QUEUE audit entry.  Afterwards every passed-in
playlist is upserted; `db.insert_playlist` may raise (sqlite error), which
the Python loop does not catch, modelled by the `upsert_raises` oracle. -/

/-- One iteration of the modified-playlists loop of `sync.update_playlists`. -/
def diffStep (db : Db) (p : PlaylistRow) : Db :=
  if strContains p.name "#auto" then
    log_action db "SKIP" "PLAYLIST" (some p.id) (some p.name)
      "Auto playlist detected - contains #auto in name"
      (some "Auto playlists are excluded from sync to prevent sync loops") true none
  else
    match get_playlist_snapshot_id db p.id with
    | none =>
        log_action (insert_playlist_change db p.id p.name "NEW" none p.snapshot_id)
          "ADD_TO_QUEUE" "PLAYLIST" (some p.id) (some p.name)
          "New playlist detected - first time tracking"
          (some ("Snapshot ID: " ++ pyShowOpt p.snapshot_id)) true none
    | some old =>
        log_action (insert_playlist_change db p.id p.name "MODIFIED" (some old) p.snapshot_id)
          "ADD_TO_QUEUE" "PLAYLIST" (some p.id) (some p.name)
          "Playlist modification detected - snapshot ID changed"
          (some ("Old snapshot: " ++ old ++ ", New snapshot: " ++ pyShowOpt p.snapshot_id))
          true none

/-- The final upsert loop of `sync.update_playlists` (`for playlist in
playlists: db.insert_playlist(playlist)`).  There is no try/except around the
body: a raising upsert aborts the loop.  Returns the store and whether the
loop ran to completion. -/
def upsertLoop (upsert_raises : PlaylistRow → Bool) : Db → List PlaylistRow → Db × Bool
  | db, [] => (db, true)
  | db, p :: rest =>
      if upsert_raises p then (db, false)
      else upsertLoop upsert_raises (insert_playlist db p) rest

/-- The classification block of `sync.update_playlists`: iterate `diffStep`
over `db.get_modified_playlists`, or log CHECK_COMPLETE when none. -/
def classifyPhase (db : Db) (playlists : List PlaylistRow) : Db :=
  let modified := get_modified_playlists db playlists
  if modified.isEmpty then
    log_action db "CHECK_COMPLETE" "SYSTEM" none (some "Playlist Modification Check")
      "Completed checking all tracked playlists for modifications"
      (some ("Checked " ++ toString playlists.length ++ " playlists, no modifications found"))
      true none
  else
    modified.foldl diffStep db

/-- `sync.update_playlists`: classify all modified playlists (or log
CHECK_COMPLETE when none), then upsert every passed-in playlist. -/
def update_playlists (db : Db) (playlists : List PlaylistRow)
    (upsert_raises : PlaylistRow → Bool) : Db × Bool :=
  upsertLoop upsert_raises (classifyPhase db playlists) playlists

/-- The CHECK_COMPLETE audit row written when nothing was modified. -/
def checkCompleteRow (n : Nat) : LogRow :=
  { action_type := "CHECK_COMPLETE", entity_type := "SYSTEM", entity_id := none,
    entity_name := some "Playlist Modification Check",
    reason := "Completed checking all tracked playlists for modifications",
    details := some ("Checked " ++ toString n ++ " playlists, no modifications found"),
    success := true, error_message := none }

/-- The queue rows one playlist contributes in the classification loop. -/
def queueRowsOf (db : Db) (p : PlaylistRow) : List QueueRow :=
  if strContains p.name "#auto" then []
  else
    match get_playlist_snapshot_id db p.id with
    | none => [{ playlist_id := p.id, playlist_name := p.name, change_type := "NEW",
                 old_snapshot_id := none, new_snapshot_id := p.snapshot_id }]
    | some old => [{ playlist_id := p.id, playlist_name := p.name, change_type := "MODIFIED",
                     old_snapshot_id := some old, new_snapshot_id := p.snapshot_id }]

/-- The audit rows one playlist contributes in the classification loop. -/
def logRowsOf (db : Db) (p : PlaylistRow) : List LogRow :=
  if strContains p.name "#auto" then
    [{ action_type := "SKIP", entity_type := "PLAYLIST", entity_id := some p.id,
       entity_name := some p.name,
       reason := "Auto playlist detected - contains #auto in name",
       details := some "Auto playlists are excluded from sync to prevent sync loops",
       success := true, error_message := none }]
  else
    match get_playlist_snapshot_id db p.id with
    | none =>
        [{ action_type := "ADD_TO_QUEUE", entity_type := "PLAYLIST", entity_id := some p.id,
           entity_name := some p.name, reason := "New playlist detected - first time tracking",
           details := some ("Snapshot ID: " ++ pyShowOpt p.snapshot_id),
           success := true, error_message := none }]
    | some old =>
        [{ action_type := "ADD_TO_QUEUE", entity_type := "PLAYLIST", entity_id := some p.id,
           entity_name := some p.name,
           reason := "Playlist modification detected - snapshot ID changed",
           details := some ("Old snapshot: " ++ old ++ ", New snapshot: " ++ pyShowOpt p.snapshot_id),
           success := true, error_message := none }]

theorem diffStep_playlists (db : Db) (p : PlaylistRow) :
    (diffStep db p).playlists = db.playlists := by
  unfold diffStep
  split
  · rfl
  · split <;> rfl

theorem diffStep_queue (db : Db) (p : PlaylistRow) :
    (diffStep db p).queue = db.queue ++ queueRowsOf db p := by
  unfold diffStep queueRowsOf
  split
  · simp [log_action]
  · split <;> simp [log_action, insert_playlist_change]

theorem diffStep_action_log (db : Db) (p : PlaylistRow) :
    (diffStep db p).action_log = db.action_log ++ logRowsOf db p := by
  unfold diffStep logRowsOf
  split
  · simp [log_action]
  · split <;> simp [log_action, insert_playlist_change]

theorem queueRowsOf_congr {db1 db2 : Db} (h : db1.playlists = db2.playlists)
    (p : PlaylistRow) : queueRowsOf db1 p = queueRowsOf db2 p := by
  unfold queueRowsOf get_playlist_snapshot_id get_playlist_by_id
  rw [h]

theorem logRowsOf_congr {db1 db2 : Db} (h : db1.playlists = db2.playlists)
    (p : PlaylistRow) : logRowsOf db1 p = logRowsOf db2 p := by
  unfold logRowsOf get_playlist_snapshot_id get_playlist_by_id
  rw [h]

theorem foldl_diffStep_playlists (l : List PlaylistRow) (db : Db) :
    (l.foldl diffStep db).playlists = db.playlists := by
  induction l generalizing db with
  | nil => rfl
  | cons a l ih => rw [List.foldl_cons, ih, diffStep_playlists]

theorem foldl_diffStep_queue (l : List PlaylistRow) (db : Db) :
    (l.foldl diffStep db).queue = db.queue ++ l.flatMap (queueRowsOf db) := by
  induction l generalizing db with
  | nil => simp
  | cons a l ih =>
    rw [List.foldl_cons, ih, diffStep_queue, List.flatMap_cons, List.append_assoc]
    have hf : queueRowsOf (diffStep db a) = queueRowsOf db :=
      funext (queueRowsOf_congr (diffStep_playlists db a))
    rw [hf]

theorem foldl_diffStep_action_log (l : List PlaylistRow) (db : Db) :
    (l.foldl diffStep db).action_log = db.action_log ++ l.flatMap (logRowsOf db) := by
  induction l generalizing db with
  | nil => simp
  | cons a l ih =>
    rw [List.foldl_cons, ih, diffStep_action_log, List.flatMap_cons, List.append_assoc]
    have hf : logRowsOf (diffStep db a) = logRowsOf db :=
      funext (logRowsOf_congr (diffStep_playlists db a))
    rw [hf]

theorem upsertLoop_queue (raises : PlaylistRow → Bool) (l : List PlaylistRow) (db : Db) :
    (upsertLoop raises db l).1.queue = db.queue := by
  induction l generalizing db with
  | nil => rfl
  | cons a l ih =>
    unfold upsertLoop
    split
    · rfl
    · rw [ih]
      rfl

theorem upsertLoop_action_log (raises : PlaylistRow → Bool) (l : List PlaylistRow) (db : Db) :
    (upsertLoop raises db l).1.action_log = db.action_log := by
  induction l generalizing db with
  | nil => rfl
  | cons a l ih =>
    unfold upsertLoop
    split
    · rfl
    · rw [ih]
      rfl

theorem upsertLoop_no_raise (raises : PlaylistRow → Bool) (l : List PlaylistRow) (db : Db)
    (h : ∀ p ∈ l, raises p = false) :
    upsertLoop raises db l = (l.foldl insert_playlist db, true) := by
  induction l generalizing db with
  | nil => rfl
  | cons a l ih =>
    unfold upsertLoop
    rw [h a (List.mem_cons_self a l)]
    simp only [Bool.false_eq_true, if_false, List.foldl_cons]
    exact ih (insert_playlist db a) (fun p hp => h p (List.mem_cons_of_mem a hp))

theorem get_playlist_by_id_insert (db : Db) (a : PlaylistRow) (pid : String) :
    get_playlist_by_id (insert_playlist db a) pid =
      if a.id = pid then some a else get_playlist_by_id db pid := by
  unfold get_playlist_by_id insert_playlist
  simp only [List.find?_append]
  by_cases h : a.id = pid
  · rw [if_pos h]
    have h1 : (db.playlists.filter (fun r => !(r.id == a.id))).find?
        (fun r => r.id == pid) = none := by
      rw [List.find?_eq_none]
      intro x hx
      rw [List.mem_filter] at hx
      simp only [Bool.not_eq_eq_eq_not, Bool.not_true, beq_eq_false_iff_ne] at hx
      simp [h ▸ hx.2]
    rw [h1]
    simp [h]
  · rw [if_neg h]
    have h2 : ([a].find? (fun r => r.id == pid)) = none := by
      simp [List.find?, beq_eq_false_iff_ne.mpr h]
    rw [h2, Option.or_none, List.find?_filter]
    have h3 : (fun r : PlaylistRow => decide ((!(r.id == a.id)) = true ∧ (r.id == pid) = true))
        = fun r : PlaylistRow => r.id == pid := by
      funext r
      by_cases hr : r.id = pid
      · subst hr
        have hne : r.id ≠ a.id := fun hh => h hh.symm
        simp [hne]
      · simp [hr]
    rw [h3]

theorem get_playlist_by_id_foldl_insert (l : List PlaylistRow) (db : Db) (pid : String) :
    get_playlist_by_id (l.foldl insert_playlist db) pid =
      match (l.filter (fun q => q.id == pid)).getLast? with
      | some q => some q
      | none => get_playlist_by_id db pid := by
  induction l generalizing db with
  | nil => rfl
  | cons a l ih =>
    rw [List.foldl_cons, ih, List.filter_cons]
    by_cases h : a.id = pid
    · simp only [h, beq_self_eq_true, if_pos]
      cases hl : (l.filter (fun q => q.id == pid)).getLast? with
      | some q => simp [List.getLast?_cons, hl]
      | none =>
        have : l.filter (fun q => q.id == pid) = [] := by
          cases hfl : l.filter (fun q => q.id == pid) with
          | nil => rfl
          | cons x xs => rw [hfl] at hl; simp [List.getLast?_concat] at hl
        simp [this, get_playlist_by_id_insert, h]
    · have hba : (a.id == pid) = false := beq_eq_false_iff_ne.mpr h
      simp only [hba, Bool.false_eq_true, if_false]
      cases hl : (l.filter (fun q => q.id == pid)).getLast? with
      | some q => simp
      | none => simp [get_playlist_by_id_insert, h]

theorem classifyPhase_playlists (db : Db) (pls : List PlaylistRow) :
    (classifyPhase db pls).playlists = db.playlists := by
  by_cases h : (get_modified_playlists db pls).isEmpty = true
  · simp only [classifyPhase, h, if_true]
    rfl
  · simp only [classifyPhase, h, if_false]
    exact foldl_diffStep_playlists _ db

theorem classifyPhase_queue (db : Db) (pls : List PlaylistRow) :
    (classifyPhase db pls).queue =
      db.queue ++ (get_modified_playlists db pls).flatMap (queueRowsOf db) := by
  by_cases h : (get_modified_playlists db pls).isEmpty = true
  · rw [List.isEmpty_iff] at h
    simp [classifyPhase, h, log_action]
  · simp only [classifyPhase, h, if_false]
    exact foldl_diffStep_queue _ db

theorem classifyPhase_action_log (db : Db) (pls : List PlaylistRow) :
    (classifyPhase db pls).action_log =
      db.action_log ++
        (if (get_modified_playlists db pls).isEmpty then [checkCompleteRow pls.length]
         else (get_modified_playlists db pls).flatMap (logRowsOf db)) := by
  by_cases h : (get_modified_playlists db pls).isEmpty = true
  · simp only [classifyPhase, h, if_true]
    rfl
  · simp only [classifyPhase, h, if_false]
    exact foldl_diffStep_action_log _ db

theorem update_playlists_queue (db : Db) (pls : List PlaylistRow)
    (raises : PlaylistRow → Bool) :
    (update_playlists db pls raises).1.queue =
      db.queue ++ (get_modified_playlists db pls).flatMap (queueRowsOf db) := by
  unfold update_playlists
  rw [upsertLoop_queue, classifyPhase_queue]

theorem update_playlists_action_log (db : Db) (pls : List PlaylistRow)
    (raises : PlaylistRow → Bool) :
    (update_playlists db pls raises).1.action_log =
      db.action_log ++
        (if (get_modified_playlists db pls).isEmpty then [checkCompleteRow pls.length]
         else (get_modified_playlists db pls).flatMap (logRowsOf db)) := by
  unfold update_playlists
  rw [upsertLoop_action_log, classifyPhase_action_log]

theorem filter_queueRowsOf (db : Db) (a : PlaylistRow) (pid : String) :
    (queueRowsOf db a).filter (fun r => r.playlist_id == pid) =
      if a.id == pid then queueRowsOf db a else [] := by
  unfold queueRowsOf
  split
  · simp
  · split
    all_goals
      by_cases h : a.id = pid
      · simp [h, List.filter]
      · simp [List.filter, beq_eq_false_iff_ne.mpr h]

theorem filter_flatMap_queueRowsOf (db : Db) (l : List PlaylistRow) (pid : String) :
    (l.flatMap (queueRowsOf db)).filter (fun r => r.playlist_id == pid) =
      (l.filter (fun q => q.id == pid)).flatMap (queueRowsOf db) := by
  induction l with
  | nil => rfl
  | cons a l ih =>
    rw [List.flatMap_cons, List.filter_append, ih, List.filter_cons, filter_queueRowsOf]
    by_cases h : a.id = pid
    · simp [h]
    · simp [beq_eq_false_iff_ne.mpr h]

theorem filter_modified_of_unique {db : Db} {pls : List PlaylistRow} {p : PlaylistRow}
    (hmem : pls.filter (fun q => q.id == p.id) = [p]) :
    (get_modified_playlists db pls).filter (fun q => q.id == p.id) =
      if check_playlist_modified db p then [p] else [] := by
  unfold get_modified_playlists
  rw [List.filter_filter]
  have hcomm : (fun q : PlaylistRow => (q.id == p.id) && check_playlist_modified db q)
      = fun q : PlaylistRow => check_playlist_modified db q && (q.id == p.id) := by
    funext q
    exact Bool.and_comm _ _
  rw [hcomm, ← List.filter_filter, hmem, List.filter_cons, List.filter_nil]

/-- The ADD_TO_QUEUE audit selection for one classified playlist. -/
theorem filter_add_logRowsOf (db : Db) (a : PlaylistRow) (pid : String) :
    (logRowsOf db a).filter
        (fun r => r.action_type == "ADD_TO_QUEUE" && r.entity_id == some pid) =
      if strContains a.name "#auto" then []
      else if a.id == pid then logRowsOf db a else [] := by
  unfold logRowsOf
  split
  · simp [List.filter]
  · split
    all_goals
      by_cases h : a.id = pid
      · simp [h, List.filter]
      · simp [List.filter, beq_eq_false_iff_ne.mpr h]

/-- The SKIP audit row written for an auto playlist that passed the
modification check. -/
def skipRowOf (p : PlaylistRow) : LogRow :=
  { action_type := "SKIP", entity_type := "PLAYLIST", entity_id := some p.id,
    entity_name := some p.name,
    reason := "Auto playlist detected - contains #auto in name",
    details := some "Auto playlists are excluded from sync to prevent sync loops",
    success := true, error_message := none }

theorem filter_skip_logRowsOf (db : Db) (a : PlaylistRow) (pid : String) :
    (logRowsOf db a).filter
        (fun r => r.action_type == "SKIP" && r.entity_id == some pid) =
      if strContains a.name "#auto" then (if a.id == pid then [skipRowOf a] else [])
      else [] := by
  unfold logRowsOf skipRowOf
  split
  · by_cases h : a.id = pid
    · simp [h, List.filter]
    · simp [List.filter, beq_eq_false_iff_ne.mpr h]
  · split <;> simp [List.filter]

theorem flatMap_eq_flatMap_filter {α β : Type} (l : List α) (f : α → List β)
    (g : α → Bool) (h : ∀ a ∈ l, g a = false → f a = []) :
    l.flatMap f = (l.filter g).flatMap f := by
  induction l with
  | nil => rfl
  | cons a l ih =>
    rw [List.flatMap_cons, List.filter_cons]
    by_cases hg : g a = true
    · rw [if_pos hg, List.flatMap_cons,
        ih (fun x hx hgx => h x (List.mem_cons_of_mem a hx) hgx)]
    · rw [if_neg hg, h a (List.mem_cons_self a l) (Bool.not_eq_true _ ▸ hg),
        ih (fun x hx hgx => h x (List.mem_cons_of_mem a hx) hgx)]
      rfl

theorem filter_flatMap {α β : Type} (l : List α) (f : α → List β) (q : β → Bool) :
    (l.flatMap f).filter q = l.flatMap (fun a => (f a).filter q) := by
  induction l with
  | nil => rfl
  | cons a l ih => rw [List.flatMap_cons, List.filter_append, ih, List.flatMap_cons]

/-- Queue rows for one particular playlist id after `update_playlists`, when
that playlist occurs exactly once among the passed-in snapshots: one fresh
classification entry appears iff the modification check fired. -/
theorem update_playlists_queue_slice (db : Db) (pls : List PlaylistRow) (p : PlaylistRow)
    (raises : PlaylistRow → Bool)
    (hmem : pls.filter (fun q => q.id == p.id) = [p]) :
    (update_playlists db pls raises).1.queue.filter (fun r => r.playlist_id == p.id) =
      db.queue.filter (fun r => r.playlist_id == p.id) ++
        (if check_playlist_modified db p then queueRowsOf db p else []) := by
  rw [update_playlists_queue, List.filter_append, filter_flatMap_queueRowsOf,
    filter_modified_of_unique hmem]
  by_cases h : check_playlist_modified db p = true
  · simp [h]
  · simp [h]

theorem mem_of_filter_unique {pls : List PlaylistRow} {p : PlaylistRow}
    (hmem : pls.filter (fun q => q.id == p.id) = [p]) : p ∈ pls := by
  have : p ∈ pls.filter (fun q => q.id == p.id) := by
    rw [hmem]
    exact List.mem_singleton.mpr rfl
  exact (List.mem_filter.mp this).1

/-- Audit rows matched by a fixed selection after `update_playlists`, when
the selection ignores CHECK_COMPLETE rows and rows of other playlists. -/
theorem update_playlists_log_slice (db : Db) (pls : List PlaylistRow) (p : PlaylistRow)
    (raises : PlaylistRow → Bool) (pred : LogRow → Bool)
    (hmem : pls.filter (fun q => q.id == p.id) = [p])
    (hccr : ∀ n, pred (checkCompleteRow n) = false)
    (hzero : ∀ a, (a.id == p.id) = false → (logRowsOf db a).filter pred = []) :
    (update_playlists db pls raises).1.action_log.filter pred =
      db.action_log.filter pred ++
        (if check_playlist_modified db p then (logRowsOf db p).filter pred else []) := by
  rw [update_playlists_action_log, List.filter_append]
  congr 1
  by_cases h : (get_modified_playlists db pls).isEmpty = true
  · rw [if_pos h]
    have hcheck : check_playlist_modified db p = false := by
      by_contra hc
      have hc' : check_playlist_modified db p = true := by
        cases hcc : check_playlist_modified db p
        · exact absurd hcc hc
        · rfl
      have hpmem : p ∈ get_modified_playlists db pls :=
        List.mem_filter.mpr ⟨mem_of_filter_unique hmem, hc'⟩
      rw [List.isEmpty_iff] at h
      rw [h] at hpmem
      exact List.not_mem_nil p hpmem
    simp [List.filter, hccr, hcheck]
  · rw [if_neg h, filter_flatMap]
    rw [flatMap_eq_flatMap_filter _ _ (fun q => q.id == p.id)
      (fun a _ ha => hzero a ha), filter_modified_of_unique hmem]
    by_cases hc : check_playlist_modified db p = true
    · simp [hc]
    · simp [hc]

theorem foldl_insert_playlist_queue (l : List PlaylistRow) (db : Db) :
    (l.foldl insert_playlist db).queue = db.queue := by
  induction l generalizing db with
  | nil => rfl
  | cons a l ih => rw [List.foldl_cons, ih]; rfl

theorem foldl_insert_playlist_action_log (l : List PlaylistRow) (db : Db) :
    (l.foldl insert_playlist db).action_log = db.action_log := by
  induction l generalizing db with
  | nil => rfl
  | cons a l ih => rw [List.foldl_cons, ih]; rfl

theorem upsertLoop_raises_at (raises : PlaylistRow → Bool) (l1 : List PlaylistRow)
    (p : PlaylistRow) (l2 : List PlaylistRow) (db : Db)
    (h1 : ∀ q ∈ l1, raises q = false) (h2 : raises p = true) :
    upsertLoop raises db (l1 ++ p :: l2) = (l1.foldl insert_playlist db, false) := by
  induction l1 generalizing db with
  | nil =>
    rw [List.nil_append]
    unfold upsertLoop
    rw [h2]
    simp
  | cons a l ih =>
    rw [List.cons_append]
    unfold upsertLoop
    rw [h1 a (List.mem_cons_self a l)]
    simp only [Bool.false_eq_true, if_false, List.foldl_cons]
    exact ih (insert_playlist db a) (fun q hq => h1 q (List.mem_cons_of_mem a hq))

/-- C2 (amended).  For a passed-in playlist without the auto marker that is
unique among the inputs for its id: exactly one QueueEntry is appended iff
the modification check fires; that entry is NEW with null old fingerprint
exactly when the stored-snapshot lookup yields null, and MODIFIED capturing
old and new fingerprints exactly when the lookup yields a stored value; when
a stored row exists with fingerprint equal to the current one, no QueueEntry
and no ADD_TO_QUEUE audit entry is appended; in every case the playlist
snapshot is upserted into the row store afterwards. -/
theorem update_playlists_c2_amended (db : Db) (pls : List PlaylistRow) (p : PlaylistRow)
    (hmem : pls.filter (fun q => q.id == p.id) = [p])
    (hauto : strContains p.name "#auto" = false) :
    ((update_playlists db pls (fun _ => false)).1.queue.filter
        (fun r => r.playlist_id == p.id) =
      db.queue.filter (fun r => r.playlist_id == p.id) ++
        (if check_playlist_modified db p then queueRowsOf db p else []))
    ∧ (get_playlist_snapshot_id db p.id = none →
        queueRowsOf db p = [⟨p.id, p.name, "NEW", none, p.snapshot_id⟩])
    ∧ (∀ o, get_playlist_snapshot_id db p.id = some o →
        queueRowsOf db p = [⟨p.id, p.name, "MODIFIED", some o, p.snapshot_id⟩])
    ∧ (∀ st, get_playlist_by_id db p.id = some st → st.snapshot_id = p.snapshot_id →
        ((update_playlists db pls (fun _ => false)).1.queue.filter
            (fun r => r.playlist_id == p.id) =
          db.queue.filter (fun r => r.playlist_id == p.id))
        ∧ ((update_playlists db pls (fun _ => false)).1.action_log.filter
            (fun r => r.action_type == "ADD_TO_QUEUE" && r.entity_id == some p.id) =
          db.action_log.filter
            (fun r => r.action_type == "ADD_TO_QUEUE" && r.entity_id == some p.id)))
    ∧ get_playlist_by_id (update_playlists db pls (fun _ => false)).1 p.id = some p := by
  have hcheckfalse : ∀ st, get_playlist_by_id db p.id = some st →
      st.snapshot_id = p.snapshot_id → check_playlist_modified db p = false := by
    intro st hst heq
    unfold check_playlist_modified
    rw [hst]
    simp [heq]
  refine ⟨update_playlists_queue_slice db pls p _ hmem, ?_, ?_, ?_, ?_⟩
  · intro hnone
    unfold queueRowsOf
    rw [hauto, hnone]
    simp
  · intro o ho
    unfold queueRowsOf
    rw [hauto, ho]
    simp
  · intro st hst heq
    constructor
    · rw [update_playlists_queue_slice db pls p _ hmem, hcheckfalse st hst heq]
      simp
    · rw [update_playlists_log_slice db pls p _ _ hmem (fun n => by simp [checkCompleteRow])
        (fun a ha => by rw [filter_add_logRowsOf, ha]; split <;> simp),
        hcheckfalse st hst heq]
      simp
  · unfold update_playlists
    rw [upsertLoop_no_raise _ _ _ (fun q _ => rfl),
      get_playlist_by_id_foldl_insert, hmem]
    rfl

/-- Witness for C2 at a concrete input: a fresh playlist, empty store. -/
theorem update_playlists_c2_amended_witness :
    (([⟨"w2", "W", none, none, some "s1", false, false, none, none, none⟩] :
        List PlaylistRow).filter
          (fun q => q.id == (⟨"w2", "W", none, none, some "s1", false, false, none,
            none, none⟩ : PlaylistRow).id) =
        [⟨"w2", "W", none, none, some "s1", false, false, none, none, none⟩])
    ∧ (get_playlist_snapshot_id (Db.mk [] [] [] [] [] [] []) "w2" = none →
        queueRowsOf (Db.mk [] [] [] [] [] [] [])
          ⟨"w2", "W", none, none, some "s1", false, false, none, none, none⟩ =
        [{ playlist_id := "w2", playlist_name := "W", change_type := "NEW",
           old_snapshot_id := none, new_snapshot_id := some "s1" }]) := by
  refine ⟨by decide, ?_⟩
  exact (update_playlists_c2_amended (Db.mk [] [] [] [] [] [] [])
    [⟨"w2", "W", none, none, some "s1", false, false, none, none, none⟩]
    ⟨"w2", "W", none, none, some "s1", false, false, none, none, none⟩
    (by decide) (by decide)).2.1

/-- Counterexample to C2 as stated: the store holds a row for `p1` whose
fingerprint is NULL; the incoming snapshot has fingerprint `s2`.  A stored
row exists and its fingerprint differs from the current one, yet the engine
classifies the playlist NEW (the code branches on the snapshot lookup
returning None, not on row existence). -/
theorem update_playlists_c2_counterexample :
    (get_playlist_by_id
        (Db.mk [⟨"p1", "X", none, none, none, false, false, none, none, none⟩]
          [] [] [] [] [] []) "p1").isSome = true
    ∧ ((update_playlists
          (Db.mk [⟨"p1", "X", none, none, none, false, false, none, none, none⟩]
            [] [] [] [] [] [])
          [⟨"p1", "X", none, none, some "s2", false, false, none, none, none⟩]
          (fun _ => false)).1.queue.map (fun r => r.change_type)) = ["NEW"] := by
  decide

/-- C3 (amended).  For a passed-in playlist whose name contains the `#auto`
marker (unique among the inputs for its id): no QueueEntry is ever created
for it, and exactly one SKIP audit entry is appended iff the playlist passes
the modification check (no stored row, or changed fingerprint); an unchanged
auto playlist is not visited by the classification loop and receives no SKIP
entry. -/
theorem update_playlists_c3_amended (db : Db) (pls : List PlaylistRow) (p : PlaylistRow)
    (hmem : pls.filter (fun q => q.id == p.id) = [p])
    (hauto : strContains p.name "#auto" = true) :
    ((update_playlists db pls (fun _ => false)).1.queue.filter
        (fun r => r.playlist_id == p.id) =
      db.queue.filter (fun r => r.playlist_id == p.id))
    ∧ ((update_playlists db pls (fun _ => false)).1.action_log.filter
        (fun r => r.action_type == "SKIP" && r.entity_id == some p.id) =
      db.action_log.filter (fun r => r.action_type == "SKIP" && r.entity_id == some p.id)
        ++ (if check_playlist_modified db p then [skipRowOf p] else [])) := by
  constructor
  · rw [update_playlists_queue_slice db pls p _ hmem]
    have hq : queueRowsOf db p = [] := by
      unfold queueRowsOf
      rw [hauto]
      simp
    rw [hq]
    split <;> simp
  · rw [update_playlists_log_slice db pls p _ _ hmem (fun n => by simp [checkCompleteRow])
      (fun a ha => by rw [filter_skip_logRowsOf, ha]; split <;> simp)]
    congr 1
    rw [filter_skip_logRowsOf, hauto]
    simp

/-- Witness for C3 at a concrete input: an auto playlist not yet stored. -/
theorem update_playlists_c3_amended_witness :
    (([⟨"w3", "Mix #auto", none, none, some "s1", false, false, none, none, none⟩] :
        List PlaylistRow).filter
          (fun q => q.id == (⟨"w3", "Mix #auto", none, none, some "s1", false, false,
            none, none, none⟩ : PlaylistRow).id) =
        [⟨"w3", "Mix #auto", none, none, some "s1", false, false, none, none, none⟩])
    ∧ ((update_playlists (Db.mk [] [] [] [] [] [] [])
          [⟨"w3", "Mix #auto", none, none, some "s1", false, false, none, none, none⟩]
          (fun _ => false)).1.queue.filter (fun r => r.playlist_id == "w3") =
        (Db.mk [] [] [] [] [] [] []).queue.filter (fun r => r.playlist_id == "w3")) := by
  refine ⟨by decide, ?_⟩
  exact (update_playlists_c3_amended (Db.mk [] [] [] [] [] [] [])
    [⟨"w3", "Mix #auto", none, none, some "s1", false, false, none, none, none⟩]
    ⟨"w3", "Mix #auto", none, none, some "s1", false, false, none, none, none⟩
    (by decide) (by decide)).1

/-- Counterexample to C3 as stated: an UNCHANGED auto playlist (stored and
current fingerprints both `s1`) is never visited by the classification loop,
so no SKIP audit entry is written for it, although the claim demands one
audit entry for every passed-in auto playlist. -/
theorem update_playlists_c3_counterexample :
    strContains "Mix #auto" "#auto" = true
    ∧ ((update_playlists
          (Db.mk [⟨"p", "Mix #auto", none, none, some "s1", false, false, none, none,
            none⟩] [] [] [] [] [] [])
          [⟨"p", "Mix #auto", none, none, some "s1", false, false, none, none, none⟩]
          (fun _ => false)).1.action_log.filter
            (fun r => r.action_type == "SKIP")).length = 0 := by
  decide

/-- C4 (amended).  An exception while upserting one playlist snapshot aborts
the final upsert loop: the loop reports failure, the playlists before the
raising one are upserted and the raising one and all later ones are not;
classification (queue entries and audit log) is unaffected, because it
completes before any upsert happens. -/
theorem update_playlists_c4_amended (db : Db) (l1 : List PlaylistRow) (p : PlaylistRow)
    (l2 : List PlaylistRow) (raises : PlaylistRow → Bool)
    (h1 : ∀ q ∈ l1, raises q = false) (h2 : raises p = true) :
    (update_playlists db (l1 ++ p :: l2) raises).2 = false
    ∧ (update_playlists db (l1 ++ p :: l2) raises).1.queue =
        (update_playlists db (l1 ++ p :: l2) (fun _ => false)).1.queue
    ∧ (update_playlists db (l1 ++ p :: l2) raises).1.action_log =
        (update_playlists db (l1 ++ p :: l2) (fun _ => false)).1.action_log
    ∧ (∀ pid, get_playlist_by_id (update_playlists db (l1 ++ p :: l2) raises).1 pid =
        match (l1.filter (fun q => q.id == pid)).getLast? with
        | some q => some q
        | none => get_playlist_by_id db pid) := by
  have hrun : update_playlists db (l1 ++ p :: l2) raises =
      (l1.foldl insert_playlist (classifyPhase db (l1 ++ p :: l2)), false) := by
    unfold update_playlists
    exact upsertLoop_raises_at raises l1 p l2 _ h1 h2
  refine ⟨by rw [hrun], ?_, ?_, ?_⟩
  · rw [hrun, update_playlists_queue]
    show (l1.foldl insert_playlist (classifyPhase db (l1 ++ p :: l2))).queue = _
    rw [foldl_insert_playlist_queue, classifyPhase_queue]
  · rw [hrun, update_playlists_action_log]
    show (l1.foldl insert_playlist (classifyPhase db (l1 ++ p :: l2))).action_log = _
    rw [foldl_insert_playlist_action_log, classifyPhase_action_log]
  · intro pid
    rw [hrun]
    show get_playlist_by_id (l1.foldl insert_playlist (classifyPhase db (l1 ++ p :: l2))) pid = _
    rw [get_playlist_by_id_foldl_insert]
    have : get_playlist_by_id (classifyPhase db (l1 ++ p :: l2)) pid =
        get_playlist_by_id db pid := by
      unfold get_playlist_by_id
      rw [classifyPhase_playlists]
    rw [this]

/-- Witness for C4 at a concrete input: the first upsert raises, the second
playlist is never stored. -/
theorem update_playlists_c4_amended_witness :
    ((∀ q ∈ ([] : List PlaylistRow), (fun r : PlaylistRow => r.id == "p1") q = false)
      ∧ (fun r : PlaylistRow => r.id == "p1")
          ⟨"p1", "A", none, none, some "s1", false, false, none, none, none⟩ = true)
    ∧ (update_playlists (Db.mk [] [] [] [] [] [] [])
        ([] ++ ⟨"p1", "A", none, none, some "s1", false, false, none, none, none⟩ ::
          [⟨"p2", "B", none, none, some "s2", false, false, none, none, none⟩])
        (fun r => r.id == "p1")).2 = false := by
  refine ⟨⟨by decide, by decide⟩, ?_⟩
  exact (update_playlists_c4_amended (Db.mk [] [] [] [] [] [] []) []
    ⟨"p1", "A", none, none, some "s1", false, false, none, none, none⟩
    [⟨"p2", "B", none, none, some "s2", false, false, none, none, none⟩]
    (fun r => r.id == "p1") (by decide) (by decide)).1

/-- Counterexample to C4 as stated: with an empty store and inputs `p1, p2`
where upserting `p1` raises, `p2` is never upserted — the loop has no
per-item try/continue, so one failure aborts storage of the remaining
playlists. -/
theorem update_playlists_c4_counterexample :
    (update_playlists (Db.mk [] [] [] [] [] [] [])
        [⟨"p1", "A", none, none, some "s1", false, false, none, none, none⟩,
         ⟨"p2", "B", none, none, some "s2", false, false, none, none, none⟩]
        (fun r => r.id == "p1")).1.playlists = []
    ∧ (update_playlists (Db.mk [] [] [] [] [] [] [])
        [⟨"p1", "A", none, none, some "s1", false, false, none, none, none⟩,
         ⟨"p2", "B", none, none, some "s2", false, false, none, none, none⟩]
        (fun r => r.id == "p1")).2 = false := by
  decide

/-! ## sync.py: update_songs (Track/Artist Reconciler)

The remote service is abstracted as an oracle: `validate` is the outcome of
`spotify.validate_playlist_id`, `fetchTracks` of `spotify.get_playlist_songs`
(whose exceptions carry the accumulated store, since Python side effects
performed before the raise persist), `fetchArtistsBatch` of
`spotify.process_tracks_with_batched_artists` and `fetchArtist` of
`spotify.get_artist_info`.  The per-playlist body runs under try/except;
the loop also returns the trace of playlist ids whose track list was
fetched, to state that invalid entries trigger no track fetch. -/

/-- An `artists` element of a track dict (id and name are what the code
reads). -/
structure ArtistRef where
  id : String
  name : String
deriving DecidableEq, Repr

/-- A remote track dict as consumed by `update_songs` and `db.insert_song`.
Python-falsy `id`/`name` fields are modelled by the empty string. -/
structure TrackData where
  id : String
  name : String
  artists : List ArtistRef
  duration_ms : Option Int
  explicit : Bool
  popularity : Option Int
  preview_url : Option String
  href : Option String
  uri : Option String
  external_urls : Option String
  album_id : Option String
  album_name : Option String
deriving DecidableEq, Repr

/-- A full remote artist dict as consumed by `db.insert_artist`
(`external_urls` already rendered to its stored string form). -/
structure ArtistData where
  id : String
  name : String
  genres : List String
  popularity : Option Int
  followers_total : Option Int
  href : Option String
  uri : Option String
  external_urls : Option String
deriving DecidableEq, Repr

/-- The parameter tuple of `db.insert_song` built from a track dict. -/
def songRowOfTrack (t : TrackData) : SongRow :=
  ⟨t.id, t.name, t.duration_ms, t.explicit, t.popularity, t.preview_url, t.href,
    t.uri, t.external_urls, t.album_id, t.album_name⟩

/-- The parameter tuple of `db.insert_artist` built from an artist dict:
genres comma-joined, empty list stored as NULL. -/
def artistRowOf (a : ArtistData) : ArtistRow :=
  ⟨a.id, a.name,
    (if a.genres.isEmpty then none else some (String.intercalate ", " a.genres)),
    a.popularity, a.followers_total, a.href, a.uri, a.external_urls⟩

/-- The `valid`/`accessible`/`error` fields of a
`spotify.validate_playlist_id` response, as read by `update_songs`. -/
structure ValidationResult where
  valid : Bool
  accessible : Bool
  error : Option String
deriving DecidableEq, Repr

/-- The remote-service oracle for the reconciler. -/
structure RemoteOracle where
  validate : String → ValidationResult
  fetchTracks : String → Except String (List (Option TrackData))
  fetchArtistsBatch : List String → Except String (List (String × ArtistData))
  fetchArtist : String → Except String ArtistData

/-- Python `artist_id in artist_data` / `artist_data[artist_id]` on the
batched result map. -/
def lookupArtist (m : List (String × ArtistData)) (aid : String) : Option ArtistData :=
  (m.find? (fun x => x.1 == aid)).map (fun x => x.2)

/-- The track filter of the `for track in tracks` loop: drop null stubs and
tracks with falsy id or name. -/
def validTracks (tracks : List (Option TrackData)) : List TrackData :=
  tracks.filterMap (fun t? =>
    match t? with
    | none => none
    | some t => if t.id == "" || t.name == "" then none else some t)

/-- The union of artist ids over the new tracks
(`spotify.process_tracks_with_batched_artists` builds this set). -/
def batchArtistIds (new_tracks : List TrackData) : List String :=
  (new_tracks.flatMap (fun t => t.artists.map (fun a => a.id))).dedup

/-- The `for artist in artists` loop for one new track: store the artist
from the batch result, or fetch it individually as fallback, then store the
junction row.  A raising fallback fetch aborts with the store mutated so
far. -/
def insertTrackArtists (o : RemoteOracle) (artist_data : List (String × ArtistData)) :
    Db → String → List ArtistRef → Except (Db × String) Db
  | db, _, [] => Except.ok db
  | db, track_id, a :: rest =>
    match lookupArtist artist_data a.id with
    | some info =>
        insertTrackArtists o artist_data
          (insert_song_artist (insert_artist db (artistRowOf info)) track_id a.id)
          track_id rest
    | none =>
        match o.fetchArtist a.id with
        | Except.ok info =>
            insertTrackArtists o artist_data
              (insert_song_artist (insert_artist db (artistRowOf info)) track_id a.id)
              track_id rest
        | Except.error e => Except.error (db, e)

/-- The `for track in new_tracks` loop: upsert the song row, then its
artists and junction rows. -/
def insertNewTracks (o : RemoteOracle) (artist_data : List (String × ArtistData)) :
    Db → List TrackData → Except (Db × String) Db
  | db, [] => Except.ok db
  | db, t :: rest =>
    match insertTrackArtists o artist_data (insert_song db (songRowOfTrack t)) t.id t.artists with
    | Except.error r => Except.error r
    | Except.ok db => insertNewTracks o artist_data db rest

/-- The `if new_tracks:` block of `update_songs`: batch-fetch the new
tracks' artists (`process_tracks_with_batched_artists` issues no batch call
when the id set is empty), then store each new song with its artists. -/
def syncStep (o : RemoteOracle) (db : Db) (new_tracks : List TrackData) :
    Except (Db × String) Db :=
  if new_tracks.isEmpty then Except.ok db
  else if (batchArtistIds new_tracks).isEmpty then insertNewTracks o [] db new_tracks
  else
    match o.fetchArtistsBatch (batchArtistIds new_tracks) with
    | Except.error e => Except.error (db, e)
    | Except.ok artist_data => insertNewTracks o artist_data db new_tracks

/-- The try-block body of `update_songs` for one queued playlist: fetch
tracks, detect new ones, batch-fetch and store artists and songs, then
set-reconcile membership. -/
def syncBody (o : RemoteOracle) (db : Db) (pid : String) :
    Except (Db × String) (Db × SyncResult) :=
  match o.fetchTracks pid with
  | Except.error e => Except.error (db, e)
  | Except.ok tracks =>
    let valid := validTracks tracks
    let current_song_ids := valid.map (fun t => t.id)
    let new_tracks := valid.filter (fun t => (get_song_by_id db t.id).isNone)
    match syncStep o db new_tracks with
    | Except.error r => Except.error r
    | Except.ok db => Except.ok (sync_playlist_songs db pid current_song_ids)

/-- The SYNC_START audit write. -/
def logSyncStart (db : Db) (q : QueueRow) : Db :=
  log_action db "SYNC_START" "PLAYLIST" (some q.playlist_id) (some q.playlist_name)
    "Playlist passed validation checks and is ready for sync" none true none

/-- The SYNC_FAILED audit write of the except-branch. -/
def logSyncFailed (db : Db) (q : QueueRow) (e : String) : Db :=
  log_action db "SYNC_FAILED" "PLAYLIST" (some q.playlist_id) (some q.playlist_name)
    "Playlist sync failed due to unexpected error" (some ("Error: " ++ e)) false (some e)

/-- The SYNC_COMPLETE audit write. -/
def logSyncComplete (db : Db) (q : QueueRow) (res : SyncResult) : Db :=
  log_action db "SYNC_COMPLETE" "PLAYLIST" (some q.playlist_id) (some q.playlist_name)
    "Playlist sync completed successfully"
    (some ("Added: " ++ toString res.added ++ " songs, Removed: " ++
      toString res.removed ++ " songs")) true none

/-- The REMOVE_FROM_QUEUE audit write for a playlist that failed
re-validation (invalid id / no longer exists). -/
def logRemovedInvalid (db : Db) (q : QueueRow) (err : Option String) : Db :=
  log_action db "REMOVE_FROM_QUEUE" "PLAYLIST" (some q.playlist_id) (some q.playlist_name)
    "Playlist validation failed - no longer exists or invalid ID"
    (some ("Validation error: " ++ pyShowOpt err)) true none

/-- The REMOVE_FROM_QUEUE audit write for a playlist that became
inaccessible. -/
def logRemovedInaccessible (db : Db) (q : QueueRow) (err : Option String) : Db :=
  log_action db "REMOVE_FROM_QUEUE" "PLAYLIST" (some q.playlist_id) (some q.playlist_name)
    "Playlist became inaccessible - private or permissions changed"
    (some ("Accessibility error: " ++ pyShowOpt err)) true none

/-- One iteration of the `for playlist in modified_playlists` loop of
`update_songs`: re-validate, on failure remove from queue, otherwise run the
sync body under try/except; the second component accumulates the playlist
ids whose track list was fetched. -/
def processQueueEntry (o : RemoteOracle) (db : Db) (tr : List String) (q : QueueRow) :
    Db × List String :=
  if (o.validate q.playlist_id).valid = false then
    (delete_queue (logRemovedInvalid db q (o.validate q.playlist_id).error) q.playlist_id, tr)
  else if (o.validate q.playlist_id).accessible = false then
    (delete_queue (logRemovedInaccessible db q (o.validate q.playlist_id).error)
      q.playlist_id, tr)
  else
    match syncBody o (logSyncStart db q) q.playlist_id with
    | Except.ok (db2, res) =>
        (delete_queue (logSyncComplete db2 q res) q.playlist_id, tr ++ [q.playlist_id])
    | Except.error (db2, e) => (logSyncFailed db2 q e, tr ++ [q.playlist_id])

/-- The queue-draining loop of `update_songs`. -/
def updateSongsLoop (o : RemoteOracle) : Db × List String → List QueueRow → Db × List String
  | acc, [] => acc
  | (db, tr), q :: rest => updateSongsLoop o (processQueueEntry o db tr q) rest

/-- `sync.update_songs`: drain `db.get_queue`. -/
def update_songs (o : RemoteOracle) (db : Db) : Db × List String :=
  updateSongsLoop o (db, []) (get_queue db)

/-! ## Frame lemmas for C5 and C6: the reconciler never touches the
`playlists` table, and the sync body never touches the `queue` table. -/

/-- State reached by a fallible store operation (Python side effects
performed before a raise persist). -/
def exState : Except (Db × String) Db → Db
  | Except.ok d => d
  | Except.error (d, _) => d

theorem insert_playlist_song_frame (db : Db) (pid sid : String) :
    (insert_playlist_song db pid sid).queue = db.queue ∧
      (insert_playlist_song db pid sid).playlists = db.playlists := by
  unfold insert_playlist_song
  split <;> exact ⟨rfl, rfl⟩

theorem insert_song_artist_frame (db : Db) (sid aid : String) :
    (insert_song_artist db sid aid).queue = db.queue ∧
      (insert_song_artist db sid aid).playlists = db.playlists := by
  unfold insert_song_artist
  split <;> exact ⟨rfl, rfl⟩

theorem foldl_insert_playlist_song_frame (ids : List String) (db : Db) (pid : String) :
    (ids.foldl (fun d sid => insert_playlist_song d pid sid) db).queue = db.queue ∧
      (ids.foldl (fun d sid => insert_playlist_song d pid sid) db).playlists =
        db.playlists := by
  induction ids generalizing db with
  | nil => exact ⟨rfl, rfl⟩
  | cons a l ih =>
    rw [List.foldl_cons]
    obtain ⟨hq, hp⟩ := ih (insert_playlist_song db pid a)
    obtain ⟨hq1, hp1⟩ := insert_playlist_song_frame db pid a
    exact ⟨hq.trans hq1, hp.trans hp1⟩

theorem foldl_delete_playlist_song_frame (ids : List String) (db : Db) (pid : String) :
    (ids.foldl (fun d sid => delete_playlist_song d pid sid) db).queue = db.queue ∧
      (ids.foldl (fun d sid => delete_playlist_song d pid sid) db).playlists =
        db.playlists := by
  induction ids generalizing db with
  | nil => exact ⟨rfl, rfl⟩
  | cons a l ih =>
    rw [List.foldl_cons]
    exact ih (delete_playlist_song db pid a)

theorem sync_playlist_songs_frame (db : Db) (pid : String) (cur : List String) :
    (sync_playlist_songs db pid cur).1.queue = db.queue ∧
      (sync_playlist_songs db pid cur).1.playlists = db.playlists := by
  rw [sync_playlist_songs_fst]
  obtain ⟨hq1, hp1⟩ := foldl_insert_playlist_song_frame
    ((storedSongIds db pid).dedup.filter fun s => decide (s ∉ cur.dedup)) db pid
  obtain ⟨hq2, hp2⟩ := foldl_delete_playlist_song_frame
    ((storedSongIds db pid).dedup.filter fun s => decide (s ∉ cur.dedup))
    ((cur.dedup.filter fun c => decide (c ∉ (storedSongIds db pid).dedup)).foldl
      (fun d sid => insert_playlist_song d pid sid) db) pid
  refine ⟨hq2.trans ?_, hp2.trans ?_⟩
  · exact (foldl_insert_playlist_song_frame _ db pid).1
  · exact (foldl_insert_playlist_song_frame _ db pid).2

theorem insertTrackArtists_frame (o : RemoteOracle) (ad : List (String × ArtistData))
    (arts : List ArtistRef) : ∀ (db : Db) (tid : String),
    (exState (insertTrackArtists o ad db tid arts)).queue = db.queue ∧
      (exState (insertTrackArtists o ad db tid arts)).playlists = db.playlists := by
  induction arts with
  | nil => intro db tid; exact ⟨rfl, rfl⟩
  | cons a rest ih =>
    intro db tid
    unfold insertTrackArtists
    cases h : lookupArtist ad a.id with
    | some info =>
      obtain ⟨hq, hp⟩ := ih (insert_song_artist (insert_artist db (artistRowOf info)) tid a.id) tid
      obtain ⟨hq1, hp1⟩ := insert_song_artist_frame (insert_artist db (artistRowOf info)) tid a.id
      exact ⟨hq.trans hq1, hp.trans hp1⟩
    | none =>
      cases hf : o.fetchArtist a.id with
      | ok info =>
        obtain ⟨hq, hp⟩ := ih (insert_song_artist (insert_artist db (artistRowOf info)) tid a.id) tid
        obtain ⟨hq1, hp1⟩ := insert_song_artist_frame (insert_artist db (artistRowOf info)) tid a.id
        exact ⟨hq.trans hq1, hp.trans hp1⟩
      | error e => exact ⟨rfl, rfl⟩

theorem insertNewTracks_frame (o : RemoteOracle) (ad : List (String × ArtistData))
    (ts : List TrackData) : ∀ db : Db,
    (exState (insertNewTracks o ad db ts)).queue = db.queue ∧
      (exState (insertNewTracks o ad db ts)).playlists = db.playlists := by
  induction ts with
  | nil => intro db; exact ⟨rfl, rfl⟩
  | cons t rest ih =>
    intro db
    unfold insertNewTracks
    cases h : insertTrackArtists o ad (insert_song db (songRowOfTrack t)) t.id t.artists with
    | error r =>
      obtain ⟨r1, r2⟩ := r
      have := insertTrackArtists_frame o ad t.artists (insert_song db (songRowOfTrack t)) t.id
      rw [h] at this
      exact this
    | ok db2 =>
      obtain ⟨hq, hp⟩ := ih db2
      have hfr := insertTrackArtists_frame o ad t.artists (insert_song db (songRowOfTrack t)) t.id
      rw [h] at hfr
      exact ⟨hq.trans hfr.1, hp.trans hfr.2⟩

theorem syncStep_frame (o : RemoteOracle) (db : Db) (nt : List TrackData) :
    (exState (syncStep o db nt)).queue = db.queue ∧
      (exState (syncStep o db nt)).playlists = db.playlists := by
  unfold syncStep
  split
  · exact ⟨rfl, rfl⟩
  · split
    · exact insertNewTracks_frame o [] nt db
    · split
      · exact ⟨rfl, rfl⟩
      · exact insertNewTracks_frame o _ nt db

/-- State reached by the sync body, success or failure. -/
def syncBodyState : Except (Db × String) (Db × SyncResult) → Db
  | Except.ok (d, _) => d
  | Except.error (d, _) => d

theorem syncBody_frame (o : RemoteOracle) (db : Db) (pid : String) :
    (syncBodyState (syncBody o db pid)).queue = db.queue ∧
      (syncBodyState (syncBody o db pid)).playlists = db.playlists := by
  unfold syncBody
  cases hft : o.fetchTracks pid with
  | error e => exact ⟨rfl, rfl⟩
  | ok tracks =>
    simp only []
    cases hs : syncStep o db
        ((validTracks tracks).filter (fun t => (get_song_by_id db t.id).isNone)) with
    | error r =>
      obtain ⟨r1, r2⟩ := r
      have := syncStep_frame o db
        ((validTracks tracks).filter (fun t => (get_song_by_id db t.id).isNone))
      rw [hs] at this
      exact this
    | ok db2 =>
      have hfr := syncStep_frame o db
        ((validTracks tracks).filter (fun t => (get_song_by_id db t.id).isNone))
      rw [hs] at hfr
      obtain ⟨hq, hp⟩ := sync_playlist_songs_frame db2 pid
        ((validTracks tracks).map (fun t => t.id))
      exact ⟨hq.trans hfr.1, hp.trans hfr.2⟩

theorem processQueueEntry_playlists (o : RemoteOracle) (db : Db) (tr : List String)
    (q : QueueRow) : (processQueueEntry o db tr q).1.playlists = db.playlists := by
  unfold processQueueEntry
  split
  · rfl
  · split
    · rfl
    · cases hs : syncBody o (logSyncStart db q) q.playlist_id with
      | ok r =>
        obtain ⟨db2, res⟩ := r
        have := syncBody_frame o (logSyncStart db q) q.playlist_id
        rw [hs] at this
        exact this.2
      | error r =>
        obtain ⟨db2, e⟩ := r
        have := syncBody_frame o (logSyncStart db q) q.playlist_id
        rw [hs] at this
        exact this.2

/-- The whole reconciler loop leaves the `playlists` table unchanged: a
queued playlist's stored row is removed only by the orphan sweep, never by
the reconciler. -/
theorem updateSongsLoop_playlists (o : RemoteOracle) (entries : List QueueRow) :
    ∀ (db : Db) (tr : List String),
      (updateSongsLoop o (db, tr) entries).1.playlists = db.playlists := by
  induction entries with
  | nil => intro db tr; rfl
  | cons q rest ih =>
    intro db tr
    show (updateSongsLoop o (processQueueEntry o db tr q) rest).1.playlists = _
    rw [show processQueueEntry o db tr q =
        ((processQueueEntry o db tr q).1, (processQueueEntry o db tr q).2) from rfl,
      ih, processQueueEntry_playlists]

/-- C5.  Per-playlist failure handling in the reconciler: for a queued
playlist that passes re-validation, if the sync body (track fetch, song and
artist storage, membership reconciliation) raises with message `e`, then a
SYNC_FAILED audit entry carrying `e` with success=false is appended, the
queue is left unchanged (the entry is retried on the next pass), and the
loop continues with the remaining queued playlists; on success a
SYNC_COMPLETE entry is appended and only then are all queue entries for the
playlist id deleted. -/
theorem update_songs_c5 (o : RemoteOracle) (db : Db) (tr : List String) (q : QueueRow)
    (rest : List QueueRow)
    (hv : (o.validate q.playlist_id).valid = true)
    (ha : (o.validate q.playlist_id).accessible = true) :
    (∀ dbe e, syncBody o (logSyncStart db q) q.playlist_id = Except.error (dbe, e) →
      updateSongsLoop o (db, tr) (q :: rest) =
        updateSongsLoop o (logSyncFailed dbe q e, tr ++ [q.playlist_id]) rest
      ∧ (logSyncFailed dbe q e).queue = db.queue
      ∧ (∃ r ∈ (logSyncFailed dbe q e).action_log,
          r.action_type = "SYNC_FAILED" ∧ r.entity_id = some q.playlist_id ∧
            r.success = false ∧ r.error_message = some e ∧
            r.details = some ("Error: " ++ e)))
    ∧ (∀ db2 res, syncBody o (logSyncStart db q) q.playlist_id = Except.ok (db2, res) →
      updateSongsLoop o (db, tr) (q :: rest) =
        updateSongsLoop o
          (delete_queue (logSyncComplete db2 q res) q.playlist_id,
            tr ++ [q.playlist_id]) rest
      ∧ (delete_queue (logSyncComplete db2 q res) q.playlist_id).queue =
          db.queue.filter (fun r => !(r.playlist_id == q.playlist_id))
      ∧ (∃ r ∈ (logSyncComplete db2 q res).action_log,
          r.action_type = "SYNC_COMPLETE" ∧ r.entity_id = some q.playlist_id ∧
            r.success = true)) := by
  constructor
  · intro dbe e hs
    have hfr := syncBody_frame o (logSyncStart db q) q.playlist_id
    rw [hs] at hfr
    simp only [syncBodyState] at hfr
    have hq : dbe.queue = db.queue := hfr.1
    have hpq : processQueueEntry o db tr q = (logSyncFailed dbe q e, tr ++ [q.playlist_id]) := by
      unfold processQueueEntry
      rw [hv, ha, hs]
      simp
    refine ⟨?_, ?_, ?_⟩
    · show updateSongsLoop o (processQueueEntry o db tr q) rest = _
      rw [hpq]
    · show dbe.queue = db.queue
      exact hq
    · refine ⟨⟨"SYNC_FAILED", "PLAYLIST", some q.playlist_id, some q.playlist_name,
        "Playlist sync failed due to unexpected error", some ("Error: " ++ e), false,
        some e⟩, ?_, rfl, rfl, rfl, rfl, rfl⟩
      simp [logSyncFailed, log_action]
  · intro db2 res hs
    have hfr := syncBody_frame o (logSyncStart db q) q.playlist_id
    rw [hs] at hfr
    simp only [syncBodyState] at hfr
    have hq : db2.queue = db.queue := hfr.1
    have hpq : processQueueEntry o db tr q =
        (delete_queue (logSyncComplete db2 q res) q.playlist_id,
          tr ++ [q.playlist_id]) := by
      unfold processQueueEntry
      rw [hv, ha, hs]
      simp
    refine ⟨?_, ?_, ?_⟩
    · show updateSongsLoop o (processQueueEntry o db tr q) rest = _
      rw [hpq]
    · show (logSyncComplete db2 q res).queue.filter _ = _
      show db2.queue.filter _ = _
      rw [hq]
    · refine ⟨⟨"SYNC_COMPLETE", "PLAYLIST", some q.playlist_id, some q.playlist_name,
        "Playlist sync completed successfully",
        some ("Added: " ++ toString res.added ++ " songs, Removed: " ++
          toString res.removed ++ " songs"), true, none⟩, ?_, rfl, rfl, rfl⟩
      simp [logSyncComplete, log_action]

/-- Witness for C5 at a concrete input: the track fetch raises, so the
failure branch of the claim applies. -/
theorem update_songs_c5_witness :
    (((RemoteOracle.mk (fun _ => ⟨true, true, none⟩) (fun _ => Except.error "boom")
        (fun _ => Except.ok []) (fun _ => Except.error "x")).validate "p").valid = true
      ∧ ((RemoteOracle.mk (fun _ => ⟨true, true, none⟩) (fun _ => Except.error "boom")
        (fun _ => Except.ok []) (fun _ => Except.error "x")).validate "p").accessible = true)
    ∧ (∀ dbe e, syncBody
        (RemoteOracle.mk (fun _ => ⟨true, true, none⟩) (fun _ => Except.error "boom")
          (fun _ => Except.ok []) (fun _ => Except.error "x"))
        (logSyncStart (Db.mk [] [] [] [] [] [] []) ⟨"p", "P", "NEW", none, some "s"⟩)
        "p" = Except.error (dbe, e) →
      updateSongsLoop
        (RemoteOracle.mk (fun _ => ⟨true, true, none⟩) (fun _ => Except.error "boom")
          (fun _ => Except.ok []) (fun _ => Except.error "x"))
        (Db.mk [] [] [] [] [] [] [], []) [⟨"p", "P", "NEW", none, some "s"⟩] =
        updateSongsLoop
          (RemoteOracle.mk (fun _ => ⟨true, true, none⟩) (fun _ => Except.error "boom")
            (fun _ => Except.ok []) (fun _ => Except.error "x"))
          (logSyncFailed dbe ⟨"p", "P", "NEW", none, some "s"⟩ e, [] ++ ["p"]) []
      ∧ (logSyncFailed dbe ⟨"p", "P", "NEW", none, some "s"⟩ e).queue =
          (Db.mk [] [] [] [] [] [] []).queue
      ∧ (∃ r ∈ (logSyncFailed dbe ⟨"p", "P", "NEW", none, some "s"⟩ e).action_log,
          r.action_type = "SYNC_FAILED" ∧ r.entity_id = some "p" ∧
            r.success = false ∧ r.error_message = some e ∧
            r.details = some ("Error: " ++ e))) := by
  refine ⟨⟨rfl, rfl⟩, ?_⟩
  exact (update_songs_c5
    (RemoteOracle.mk (fun _ => ⟨true, true, none⟩) (fun _ => Except.error "boom")
      (fun _ => Except.ok []) (fun _ => Except.error "x"))
    (Db.mk [] [] [] [] [] [] []) [] ⟨"p", "P", "NEW", none, some "s"⟩ [] rfl rfl).1

/-- C6 (amended).  A queued playlist failing re-validation: no track fetch is
attempted, a REMOVE_FROM_QUEUE audit entry is appended whose details field
records the validation error (the reason field is a fixed description), all
queue entries for the id are deleted, processing continues, and the stored
Playlist row is untouched — indeed the whole reconciler loop never changes
the playlists table. -/
theorem update_songs_c6_amended (o : RemoteOracle) (db : Db) (tr : List String)
    (q : QueueRow) (rest : List QueueRow) :
    ((o.validate q.playlist_id).valid = false →
      updateSongsLoop o (db, tr) (q :: rest) =
        updateSongsLoop o
          (delete_queue (logRemovedInvalid db q (o.validate q.playlist_id).error)
            q.playlist_id, tr) rest
      ∧ (processQueueEntry o db tr q).2 = tr
      ∧ (delete_queue (logRemovedInvalid db q (o.validate q.playlist_id).error)
          q.playlist_id).queue =
          db.queue.filter (fun r => !(r.playlist_id == q.playlist_id))
      ∧ (delete_queue (logRemovedInvalid db q (o.validate q.playlist_id).error)
          q.playlist_id).playlists = db.playlists
      ∧ (∃ r ∈ (logRemovedInvalid db q (o.validate q.playlist_id).error).action_log,
          r.action_type = "REMOVE_FROM_QUEUE" ∧ r.entity_id = some q.playlist_id ∧
            r.details = some ("Validation error: " ++
              pyShowOpt (o.validate q.playlist_id).error)))
    ∧ ((o.validate q.playlist_id).valid = true →
        (o.validate q.playlist_id).accessible = false →
      updateSongsLoop o (db, tr) (q :: rest) =
        updateSongsLoop o
          (delete_queue (logRemovedInaccessible db q (o.validate q.playlist_id).error)
            q.playlist_id, tr) rest
      ∧ (processQueueEntry o db tr q).2 = tr
      ∧ (delete_queue (logRemovedInaccessible db q (o.validate q.playlist_id).error)
          q.playlist_id).playlists = db.playlists
      ∧ (∃ r ∈ (logRemovedInaccessible db q (o.validate q.playlist_id).error).action_log,
          r.action_type = "REMOVE_FROM_QUEUE" ∧ r.entity_id = some q.playlist_id ∧
            r.details = some ("Accessibility error: " ++
              pyShowOpt (o.validate q.playlist_id).error)))
    ∧ (∀ (entries : List QueueRow) (db0 : Db) (tr0 : List String),
        (updateSongsLoop o (db0, tr0) entries).1.playlists = db0.playlists) := by
  refine ⟨?_, ?_, fun entries db0 tr0 => updateSongsLoop_playlists o entries db0 tr0⟩
  · intro hv
    have hpq : processQueueEntry o db tr q =
        (delete_queue (logRemovedInvalid db q (o.validate q.playlist_id).error)
          q.playlist_id, tr) := by
      unfold processQueueEntry
      rw [hv]
      simp
    refine ⟨?_, ?_, rfl, rfl, ?_⟩
    · show updateSongsLoop o (processQueueEntry o db tr q) rest = _
      rw [hpq]
    · rw [hpq]
    · refine ⟨⟨"REMOVE_FROM_QUEUE", "PLAYLIST", some q.playlist_id, some q.playlist_name,
        "Playlist validation failed - no longer exists or invalid ID",
        some ("Validation error: " ++ pyShowOpt (o.validate q.playlist_id).error),
        true, none⟩, ?_, rfl, rfl, rfl⟩
      simp [logRemovedInvalid, log_action]
  · intro hv ha
    have hpq : processQueueEntry o db tr q =
        (delete_queue (logRemovedInaccessible db q (o.validate q.playlist_id).error)
          q.playlist_id, tr) := by
      unfold processQueueEntry
      rw [hv, ha]
      simp
    refine ⟨?_, ?_, rfl, ?_⟩
    · show updateSongsLoop o (processQueueEntry o db tr q) rest = _
      rw [hpq]
    · rw [hpq]
    · refine ⟨⟨"REMOVE_FROM_QUEUE", "PLAYLIST", some q.playlist_id, some q.playlist_name,
        "Playlist became inaccessible - private or permissions changed",
        some ("Accessibility error: " ++ pyShowOpt (o.validate q.playlist_id).error),
        true, none⟩, ?_, rfl, rfl, rfl⟩
      simp [logRemovedInaccessible, log_action]

/-- Witness for C6 at a concrete input: a queued playlist that now fails
validation is removed from the queue without a track fetch. -/
theorem update_songs_c6_amended_witness :
    (((RemoteOracle.mk (fun _ => ⟨false, false, some "E404"⟩)
        (fun _ => Except.error "unused") (fun _ => Except.ok [])
        (fun _ => Except.error "unused")).validate "X").valid = false)
    ∧ (delete_queue
        (logRemovedInvalid (Db.mk [] [⟨"X", "Gone", "MODIFIED", some "a", some "b"⟩] [] [] [] [] [])
          ⟨"X", "Gone", "MODIFIED", some "a", some "b"⟩
          (((RemoteOracle.mk (fun _ => ⟨false, false, some "E404"⟩)
            (fun _ => Except.error "unused") (fun _ => Except.ok [])
            (fun _ => Except.error "unused")).validate "X").error)) "X").queue =
      (Db.mk [] [⟨"X", "Gone", "MODIFIED", some "a", some "b"⟩] [] [] [] [] []).queue.filter
        (fun r => !(r.playlist_id == "X")) := by
  refine ⟨rfl, ?_⟩
  exact ((update_songs_c6_amended
    (RemoteOracle.mk (fun _ => ⟨false, false, some "E404"⟩)
      (fun _ => Except.error "unused") (fun _ => Except.ok [])
      (fun _ => Except.error "unused"))
    (Db.mk [] [⟨"X", "Gone", "MODIFIED", some "a", some "b"⟩] [] [] [] [] []) []
    ⟨"X", "Gone", "MODIFIED", some "a", some "b"⟩ []).1 rfl).2.2.1

/-- Counterexample to C6 as stated: the REMOVE_FROM_QUEUE audit entry's
`reason` field is the fixed string "Playlist validation failed - no longer
exists or invalid ID", not the validation error; the error text lands in the
`details` field instead. -/
theorem update_songs_c6_counterexample :
    ((update_songs
        (RemoteOracle.mk (fun _ => ⟨false, false, some "HTTP 404: not found"⟩)
          (fun _ => Except.error "unused") (fun _ => Except.ok [])
          (fun _ => Except.error "unused"))
        (Db.mk [] [⟨"X", "Gone", "MODIFIED", some "a", some "b"⟩] [] [] [] [] [])).1.action_log.filter
          (fun r => r.action_type == "REMOVE_FROM_QUEUE")).length = 1
    ∧ ((update_songs
        (RemoteOracle.mk (fun _ => ⟨false, false, some "HTTP 404: not found"⟩)
          (fun _ => Except.error "unused") (fun _ => Except.ok [])
          (fun _ => Except.error "unused"))
        (Db.mk [] [⟨"X", "Gone", "MODIFIED", some "a", some "b"⟩] [] [] [] [] [])).1.action_log.filter
          (fun r => r.action_type == "REMOVE_FROM_QUEUE" &&
            r.reason == "HTTP 404: not found")).length = 0
    ∧ ((update_songs
        (RemoteOracle.mk (fun _ => ⟨false, false, some "HTTP 404: not found"⟩)
          (fun _ => Except.error "unused") (fun _ => Except.ok [])
          (fun _ => Except.error "unused"))
        (Db.mk [] [⟨"X", "Gone", "MODIFIED", some "a", some "b"⟩] [] [] [] [] [])).1.action_log.filter
          (fun r => r.action_type == "REMOVE_FROM_QUEUE" &&
            r.details == some "Validation error: HTTP 404: not found")).length = 1 := by
  refine ⟨?_, ?_, ?_⟩ <;> decide

/-! ## sync.py: cleanup_orphaned_data (Orphan Collector) and the db.py
orphan queries it drives.  Each of the five stages runs inside its own
try/except; a stage whose opening store query raises leaves the store
unchanged and the sweep moves on, modelled by one Boolean per stage. -/

/-- `db.get_orphaned_playlists`: all stored playlists when the tracked set is
empty, otherwise those whose id is not tracked. -/
def get_orphaned_playlists (db : Db) (tracked : List String) : List PlaylistRow :=
  if tracked.isEmpty then db.playlists
  else db.playlists.filter (fun p => decide (p.id ∉ tracked))

/-- `db.delete_playlist_and_relationships`: drop the playlist's junction
rows, its queue rows, then the playlist row. -/
def delete_playlist_and_relationships (db : Db) (pid : String) : Db :=
  { db with
    playlist_songs := db.playlist_songs.filter (fun r => !(r.1 == pid)),
    queue := db.queue.filter (fun r => !(r.playlist_id == pid)),
    playlists := db.playlists.filter (fun r => !(r.id == pid)) }

/-- `db.delete_orphaned_playlist_songs`: drop junction rows whose playlist id
no longer exists; returns the rowcount. -/
def delete_orphaned_playlist_songs (db : Db) : Db × Nat :=
  ({ db with playlist_songs :=
      db.playlist_songs.filter (fun r => decide (∃ p ∈ db.playlists, p.id = r.1)) },
   (db.playlist_songs.filter (fun r => decide (¬∃ p ∈ db.playlists, p.id = r.1))).length)

/-- `db.get_orphaned_songs`: songs with no remaining junction reference. -/
def get_orphaned_songs (db : Db) : List SongRow :=
  db.songs.filter (fun s => decide (∀ r ∈ db.playlist_songs, r.2 ≠ s.id))

/-- `db.delete_orphaned_song_artists`: drop song-artist rows whose song id no
longer exists; returns the rowcount. -/
def delete_orphaned_song_artists (db : Db) : Db × Nat :=
  ({ db with song_artists :=
      db.song_artists.filter (fun r => decide (∃ s ∈ db.songs, s.id = r.1)) },
   (db.song_artists.filter (fun r => decide (¬∃ s ∈ db.songs, s.id = r.1))).length)

/-- `db.get_orphaned_artists`: artists with no remaining song-artist
reference. -/
def get_orphaned_artists (db : Db) : List ArtistRow :=
  db.artists.filter (fun a => decide (∀ r ∈ db.song_artists, r.2 ≠ a.id))

/-- Stage 1 of `cleanup_orphaned_data`: remove each orphaned playlist with
its junction and queue rows. -/
def cleanupStage1 (db : Db) (tracked : List String) : Db :=
  (get_orphaned_playlists db tracked).foldl
    (fun d p => delete_playlist_and_relationships d p.id) db

/-- Stage 2: orphaned playlist-song junction rows. -/
def cleanupStage2 (db : Db) : Db :=
  (delete_orphaned_playlist_songs db).1

/-- Stage 3: delete each orphaned song. -/
def cleanupStage3 (db : Db) : Db :=
  (get_orphaned_songs db).foldl (fun d s => delete_song d s.id) db

/-- Stage 4: orphaned song-artist junction rows. -/
def cleanupStage4 (db : Db) : Db :=
  (delete_orphaned_song_artists db).1

/-- Stage 5: delete each orphaned artist. -/
def cleanupStage5 (db : Db) : Db :=
  (get_orphaned_artists db).foldl (fun d a => delete_artist d a.id) db

/-- A stage under its try/except: when its opening query raises (flag false)
the store is unchanged and the sweep continues. -/
def tryStage (ok : Bool) (stage : Db → Db) (db : Db) : Db :=
  if ok then stage db else db

/-- `sync.cleanup_orphaned_data`: the five stages in documented order, each
guarded by its own try/except. -/
def cleanup_orphaned_data (db : Db) (tracked : List String)
    (f1 f2 f3 f4 f5 : Bool) : Db :=
  tryStage f5 cleanupStage5
    (tryStage f4 cleanupStage4
      (tryStage f3 cleanupStage3
        (tryStage f2 cleanupStage2
          (tryStage f1 (fun d => cleanupStage1 d tracked) db))))

theorem foldl_dpr_frames (l : List PlaylistRow) (db : Db) :
    ((l.foldl (fun d p => delete_playlist_and_relationships d p.id) db).songs = db.songs)
    ∧ ((l.foldl (fun d p => delete_playlist_and_relationships d p.id) db).artists =
        db.artists)
    ∧ ((l.foldl (fun d p => delete_playlist_and_relationships d p.id) db).song_artists =
        db.song_artists) := by
  induction l generalizing db with
  | nil => exact ⟨rfl, rfl, rfl⟩
  | cons a l ih =>
    rw [List.foldl_cons]
    exact ih (delete_playlist_and_relationships db a.id)

theorem foldl_dpr_ps_sub (l : List PlaylistRow) (db : Db) (r : String × String)
    (h : r ∈ (l.foldl (fun d p => delete_playlist_and_relationships d p.id) db).playlist_songs) :
    r ∈ db.playlist_songs := by
  induction l generalizing db with
  | nil => exact h
  | cons a l ih =>
    rw [List.foldl_cons] at h
    have := ih (delete_playlist_and_relationships db a.id) h
    exact (List.mem_filter.mp this).1

theorem mem_delete_song (db : Db) (sid : String) (r : SongRow) :
    r ∈ (delete_song db sid).songs ↔ r ∈ db.songs ∧ ¬(r.id = sid) := by
  simp [delete_song, List.mem_filter]

theorem mem_foldl_delete_song (l : List SongRow) (db : Db) (r : SongRow) :
    r ∈ (l.foldl (fun d s => delete_song d s.id) db).songs ↔
      r ∈ db.songs ∧ ∀ x ∈ l, r.id ≠ x.id := by
  induction l generalizing db with
  | nil => simp
  | cons a l ih =>
    rw [List.foldl_cons, ih, mem_delete_song]
    constructor
    · rintro ⟨⟨h1, h2⟩, h3⟩
      exact ⟨h1, fun x hx => by
        rcases List.mem_cons.mp hx with rfl | hx
        · exact h2
        · exact h3 x hx⟩
    · rintro ⟨h1, h2⟩
      exact ⟨⟨h1, h2 a (List.mem_cons_self a l)⟩,
        fun x hx => h2 x (List.mem_cons_of_mem a hx)⟩

theorem foldl_delete_song_frames (l : List SongRow) (db : Db) :
    ((l.foldl (fun d s => delete_song d s.id) db).playlist_songs = db.playlist_songs)
    ∧ ((l.foldl (fun d s => delete_song d s.id) db).artists = db.artists)
    ∧ ((l.foldl (fun d s => delete_song d s.id) db).song_artists = db.song_artists) := by
  induction l generalizing db with
  | nil => exact ⟨rfl, rfl, rfl⟩
  | cons a l ih =>
    rw [List.foldl_cons]
    exact ih (delete_song db a.id)

theorem mem_delete_artist (db : Db) (aid : String) (r : ArtistRow) :
    r ∈ (delete_artist db aid).artists ↔ r ∈ db.artists ∧ ¬(r.id = aid) := by
  simp [delete_artist, List.mem_filter]

theorem mem_foldl_delete_artist (l : List ArtistRow) (db : Db) (r : ArtistRow) :
    r ∈ (l.foldl (fun d a => delete_artist d a.id) db).artists ↔
      r ∈ db.artists ∧ ∀ x ∈ l, r.id ≠ x.id := by
  induction l generalizing db with
  | nil => simp
  | cons a l ih =>
    rw [List.foldl_cons, ih, mem_delete_artist]
    constructor
    · rintro ⟨⟨h1, h2⟩, h3⟩
      exact ⟨h1, fun x hx => by
        rcases List.mem_cons.mp hx with rfl | hx
        · exact h2
        · exact h3 x hx⟩
    · rintro ⟨h1, h2⟩
      exact ⟨⟨h1, h2 a (List.mem_cons_self a l)⟩,
        fun x hx => h2 x (List.mem_cons_of_mem a hx)⟩

theorem foldl_delete_artist_songs (l : List ArtistRow) (db : Db) :
    (l.foldl (fun d a => delete_artist d a.id) db).songs = db.songs := by
  induction l generalizing db with
  | nil => rfl
  | cons a l ih =>
    rw [List.foldl_cons]
    exact ih (delete_artist db a.id)

/-- C7.  Single-invocation cascade of the orphan sweep in documented stage
order: a Song with no PlaylistSong reference and an Artist referenced only
through that Song are both gone after one sweep — the song stage (3) makes
the song-artist rows orphans for stage 4, which makes the artist an orphan
for stage 5.  The playlist stage and the junction stage may each fail
(flags `f1`, `f2` arbitrary: their try/except catches the failure) without
preventing the later stages from running and cascading. -/
theorem cleanup_orphaned_data_cascades (db : Db) (tracked : List String)
    (f1 f2 : Bool) (s : SongRow) (a : ArtistRow)
    (hs : s ∈ db.songs)
    (hps : ∀ r ∈ db.playlist_songs, r.2 ≠ s.id)
    (ha : a ∈ db.artists)
    (hsa : ∀ r ∈ db.song_artists, r.2 = a.id → r.1 = s.id) :
    (∀ r ∈ (cleanup_orphaned_data db tracked f1 f2 true true true).songs, r.id ≠ s.id)
    ∧ (∀ r ∈ (cleanup_orphaned_data db tracked f1 f2 true true true).artists,
        r.id ≠ a.id) := by
  have hcl : cleanup_orphaned_data db tracked f1 f2 true true true =
      cleanupStage5 (cleanupStage4 (cleanupStage3
        (tryStage f2 cleanupStage2
          (tryStage f1 (fun d => cleanupStage1 d tracked) db)))) := rfl
  have h1songs : (tryStage f1 (fun d => cleanupStage1 d tracked) db).songs = db.songs := by
    unfold tryStage
    split
    · exact (foldl_dpr_frames _ db).1
    · rfl
  have h1artists : (tryStage f1 (fun d => cleanupStage1 d tracked) db).artists =
      db.artists := by
    unfold tryStage
    split
    · exact (foldl_dpr_frames _ db).2.1
    · rfl
  have h1sa : (tryStage f1 (fun d => cleanupStage1 d tracked) db).song_artists =
      db.song_artists := by
    unfold tryStage
    split
    · exact (foldl_dpr_frames _ db).2.2
    · rfl
  have h1ps : ∀ r ∈ (tryStage f1 (fun d => cleanupStage1 d tracked) db).playlist_songs,
      r ∈ db.playlist_songs := by
    unfold tryStage
    split
    · exact fun r hr => foldl_dpr_ps_sub _ db r hr
    · exact fun r hr => hr
  generalize hd1 : tryStage f1 (fun d => cleanupStage1 d tracked) db = d1 at *
  have h2songs : (tryStage f2 cleanupStage2 d1).songs = d1.songs := by
    unfold tryStage
    split <;> rfl
  have h2artists : (tryStage f2 cleanupStage2 d1).artists = d1.artists := by
    unfold tryStage
    split <;> rfl
  have h2sa : (tryStage f2 cleanupStage2 d1).song_artists = d1.song_artists := by
    unfold tryStage
    split <;> rfl
  have h2ps : ∀ r ∈ (tryStage f2 cleanupStage2 d1).playlist_songs,
      r ∈ d1.playlist_songs := by
    unfold tryStage
    split
    · exact fun r hr => (List.mem_filter.mp hr).1
    · exact fun r hr => hr
  generalize hd2 : tryStage f2 cleanupStage2 d1 = d2 at *
  have hsd2 : s ∈ d2.songs := by
    rw [h2songs, h1songs]
    exact hs
  have hsorph : s ∈ get_orphaned_songs d2 := by
    refine List.mem_filter.mpr ⟨hsd2, decide_eq_true ?_⟩
    intro r hr
    exact hps r (h1ps r (h2ps r hr))
  have h3songs : ∀ r ∈ (cleanupStage3 d2).songs, r.id ≠ s.id := by
    intro r hr
    exact ((mem_foldl_delete_song _ d2 r).mp hr).2 s hsorph
  have h3frames : (cleanupStage3 d2).playlist_songs = d2.playlist_songs
      ∧ (cleanupStage3 d2).artists = d2.artists
      ∧ (cleanupStage3 d2).song_artists = d2.song_artists :=
    foldl_delete_song_frames (get_orphaned_songs d2) d2
  have h4sa : ∀ r ∈ (cleanupStage4 (cleanupStage3 d2)).song_artists, ¬(r.2 = a.id) := by
    intro r hr hra
    obtain ⟨hrsa, hex⟩ := List.mem_filter.mp hr
    have hrsa' : r ∈ db.song_artists := by
      rw [h3frames.2.2, h2sa, h1sa] at hrsa
      exact hrsa
    have hr1 : r.1 = s.id := hsa r hrsa' hra
    obtain ⟨srow, hsrow, hsid⟩ := of_decide_eq_true hex
    exact h3songs srow hsrow (hsid.trans hr1)
  have haorph : a ∈ get_orphaned_artists (cleanupStage4 (cleanupStage3 d2)) := by
    refine List.mem_filter.mpr ⟨?_, decide_eq_true ?_⟩
    · show a ∈ (cleanupStage3 d2).artists
      rw [h3frames.2.1, h2artists, h1artists]
      exact ha
    · exact h4sa
  rw [hcl]
  constructor
  · intro r hr
    rw [show (cleanupStage5 (cleanupStage4 (cleanupStage3 d2))).songs =
        (cleanupStage3 d2).songs from foldl_delete_artist_songs _ _] at hr
    exact h3songs r hr
  · intro r hr
    exact ((mem_foldl_delete_artist _ _ r).mp hr).2 a haorph

/-- Witness for C7 at a concrete store: song `s1` has no junction rows,
artist `a1` is referenced only through `s1`; a single sweep (with the first
two stages failing) removes both. -/
theorem cleanup_orphaned_data_cascades_witness :
    ((⟨"s1", "S", none, false, none, none, none, none, none, none, none⟩ : SongRow) ∈
        (Db.mk [] [] []
          [⟨"s1", "S", none, false, none, none, none, none, none, none, none⟩] []
          [] [("s1", "a1")]).songs
      ∧ (∀ r ∈ (Db.mk [] [] []
          [⟨"s1", "S", none, false, none, none, none, none, none, none, none⟩] []
          [] [("s1", "a1")]).playlist_songs, r.2 ≠ "s1"))
    ∧ (∀ r ∈ (cleanup_orphaned_data (Db.mk [] [] []
          [⟨"s1", "S", none, false, none, none, none, none, none, none, none⟩]
          [⟨"a1", "A", none, none, none, none, none, none⟩]
          [] [("s1", "a1")]) ["t"] false false true true true).songs, r.id ≠ "s1") := by
  refine ⟨⟨by decide, by decide⟩, ?_⟩
  exact (cleanup_orphaned_data_cascades (Db.mk [] [] []
      [⟨"s1", "S", none, false, none, none, none, none, none, none, none⟩]
      [⟨"a1", "A", none, none, none, none, none, none⟩]
      [] [("s1", "a1")]) ["t"] false false
    ⟨"s1", "S", none, false, none, none, none, none, none, none, none⟩
    ⟨"a1", "A", none, none, none, none, none, none⟩
    (by decide) (by decide) (by decide) (by decide)).1

/-! ## spotify.py: the rate limiter (`_enforce_rate_limit`)

Modelled under a deterministic clock: `now` is the value of `time.time()` on
entry and `time.sleep(d)` advances the clock by exactly `d`.  The timestamp
ledger `_request_times` is a list of rationals, oldest first. -/

/-- `spotify._REQUESTS_PER_MINUTE` (default 90). -/
def REQUESTS_PER_MINUTE : ℕ := 90

/-- `spotify._MIN_REQUEST_INTERVAL = 60.0 / _REQUESTS_PER_MINUTE`. -/
def MIN_REQUEST_INTERVAL : ℚ := 60 / REQUESTS_PER_MINUTE

/-- The pruning loop `while _request_times and current_time -
_request_times[0] > 60: popleft()`. -/
def pruneLedger (now : ℚ) (l : List ℚ) : List ℚ :=
  l.dropWhile (fun t => decide (60 < now - t))

/-- The ceiling branch: when the pruned ledger still holds
`_REQUESTS_PER_MINUTE` timestamps, sleep until the oldest falls out of the
60-second window (plus 0.1s) and prune again. -/
def ceilingWait (now : ℚ) : List ℚ → ℚ × List ℚ
  | [] => (now, [])
  | t0 :: rest =>
    if REQUESTS_PER_MINUTE ≤ (t0 :: rest).length then
      if 0 < 60 - (now - t0) + 1 / 10 then
        (now + (60 - (now - t0) + 1 / 10),
          pruneLedger (now + (60 - (now - t0) + 1 / 10)) (t0 :: rest))
      else (now, t0 :: rest)
    else (now, t0 :: rest)

/-- The minimum-spacing branch: if less than `_MIN_REQUEST_INTERVAL` has
passed since the newest ledger entry, sleep the difference. -/
def spacingWait (now2 : ℚ) (l2 : List ℚ) : ℚ :=
  match l2.getLast? with
  | some last =>
    if now2 - last < MIN_REQUEST_INTERVAL then
      now2 + (MIN_REQUEST_INTERVAL - (now2 - last))
    else now2
  | none => now2

/-- `spotify._enforce_rate_limit`: prune, wait under the ceiling, enforce
minimum spacing, then append the admission timestamp. -/
def enforce_rate_limit (now : ℚ) (l : List ℚ) : ℚ × List ℚ :=
  (spacingWait (ceilingWait now (pruneLedger now l)).1
      (ceilingWait now (pruneLedger now l)).2,
    (ceilingWait now (pruneLedger now l)).2 ++
      [spacingWait (ceilingWait now (pruneLedger now l)).1
        (ceilingWait now (pruneLedger now l)).2])

/-- Consecutive ledger entries are at least the minimum interval apart. -/
def spacedRel (a b : ℚ) : Prop := a + MIN_REQUEST_INTERVAL ≤ b

instance : IsTrans ℚ spacedRel :=
  ⟨fun a b c hab hbc => by
    unfold spacedRel MIN_REQUEST_INTERVAL REQUESTS_PER_MINUTE at *
    norm_num at *
    linarith⟩

theorem interval_pos : (0 : ℚ) < MIN_REQUEST_INTERVAL := by
  norm_num [MIN_REQUEST_INTERVAL, REQUESTS_PER_MINUTE]

theorem interval_lt_sixty : MIN_REQUEST_INTERVAL < 60 := by
  norm_num [MIN_REQUEST_INTERVAL, REQUESTS_PER_MINUTE]

theorem pruneLedger_sublist (now : ℚ) (l : List ℚ) : (pruneLedger now l).Sublist l :=
  List.dropWhile_sublist _

theorem pruneLedger_chain {now : ℚ} {l : List ℚ} (h : List.Chain' spacedRel l) :
    List.Chain' spacedRel (pruneLedger now l) :=
  h.sublist (pruneLedger_sublist now l)

theorem mem_of_getLast?_eq {α : Type} {l : List α} {a : α} (h : l.getLast? = some a) :
    a ∈ l := by
  have hx : a ∈ l.getLast? := by
    rw [h]
    rfl
  obtain ⟨hne, rfl⟩ := List.mem_getLast?_eq_getLast hx
  exact List.getLast_mem hne

theorem pruneLedger_getLast? (now : ℚ) (l : List ℚ) (h : pruneLedger now l ≠ []) :
    (pruneLedger now l).getLast? = l.getLast? := by
  conv_rhs => rw [← List.takeWhile_append_dropWhile (fun t => decide (60 < now - t)) l]
  rw [List.getLast?_append]
  cases hg : (pruneLedger now l).getLast? with
  | none => exact absurd (List.getLast?_eq_none_iff.mp hg) h
  | some x =>
    unfold pruneLedger at hg
    rw [hg]
    rfl

theorem pruneLedger_eq_nil {now : ℚ} {l : List ℚ} (h : pruneLedger now l = []) :
    ∀ t ∈ l, 60 < now - t := by
  intro t ht
  have := List.dropWhile_eq_nil_iff.mp h t ht
  exact of_decide_eq_true this

theorem dropWhile_head_false {α : Type} (p : α → Bool) (l : List α) (a : α)
    (rest : List α) (h : l.dropWhile p = a :: rest) : p a = false := by
  induction l with
  | nil => simp at h
  | cons x xs ih =>
    rw [List.dropWhile_cons] at h
    by_cases hx : p x = true
    · rw [if_pos hx] at h
      exact ih h
    · rw [if_neg hx] at h
      injection h with h1 h2
      subst h1
      cases hpx : p x with
      | false => rfl
      | true => exact absurd hpx hx

theorem pruneLedger_head_le {now t0 : ℚ} {l rest : List ℚ}
    (h : pruneLedger now l = t0 :: rest) : now - t0 ≤ 60 := by
  have := dropWhile_head_false (fun t => decide (60 < now - t)) l t0 rest h
  simp only [decide_eq_false_iff_not, not_lt] at this
  exact this

theorem ceilingWait_spec (now : ℚ) (l : List ℚ)
    (hchain : List.Chain' spacedRel l) (hlen : l.length ≤ REQUESTS_PER_MINUTE)
    (hle : ∀ t ∈ l, t ≤ now) :
    (ceilingWait now (pruneLedger now l)).2.length + 1 ≤ REQUESTS_PER_MINUTE
    ∧ List.Chain' spacedRel (ceilingWait now (pruneLedger now l)).2
    ∧ now ≤ (ceilingWait now (pruneLedger now l)).1
    ∧ (∀ t ∈ (ceilingWait now (pruneLedger now l)).2,
        t ≤ (ceilingWait now (pruneLedger now l)).1)
    ∧ (∀ prev, l.getLast? = some prev →
        (ceilingWait now (pruneLedger now l)).2.getLast? = some prev ∨
          60 < (ceilingWait now (pruneLedger now l)).1 - prev) := by
  cases hl1 : pruneLedger now l with
  | nil =>
    refine ⟨by norm_num [ceilingWait, REQUESTS_PER_MINUTE], by simp [ceilingWait], le_refl _,
      by simp [ceilingWait], ?_⟩
    intro prev hprev
    right
    show 60 < now - prev
    exact pruneLedger_eq_nil hl1 prev (mem_of_getLast?_eq hprev)
  | cons t0 rest =>
    have hmem1 : ∀ t ∈ t0 :: rest, t ∈ l := fun t ht =>
      (hl1 ▸ pruneLedger_sublist now l).mem ht
    have hlast1 : (t0 :: rest).getLast? = l.getLast? := by
      rw [← hl1]
      exact pruneLedger_getLast? now l (by rw [hl1]; exact List.cons_ne_nil t0 rest)
    have hlen1 : (t0 :: rest).length ≤ REQUESTS_PER_MINUTE :=
      le_trans (hl1 ▸ (pruneLedger_sublist now l).length_le) hlen
    have hchain1 : List.Chain' spacedRel (t0 :: rest) := hl1 ▸ pruneLedger_chain hchain
    have ht0 : now - t0 ≤ 60 := pruneLedger_head_le hl1
    by_cases hbr : REQUESTS_PER_MINUTE ≤ (t0 :: rest).length
    · have hpos : 0 < 60 - (now - t0) + 1 / 10 := by linarith
      have hcw : ceilingWait now (t0 :: rest) =
          (now + (60 - (now - t0) + 1 / 10),
            pruneLedger (now + (60 - (now - t0) + 1 / 10)) (t0 :: rest)) := by
        simp only [ceilingWait]
        rw [if_pos hbr, if_pos hpos]
      have hcw1 : (ceilingWait now (t0 :: rest)).1 = now + (60 - (now - t0) + 1 / 10) := by
        rw [hcw]
      have hcw2 : (ceilingWait now (t0 :: rest)).2 =
          pruneLedger (now + (60 - (now - t0) + 1 / 10)) (t0 :: rest) := by
        rw [hcw]
      have hdrop : pruneLedger (now + (60 - (now - t0) + 1 / 10)) (t0 :: rest) =
          pruneLedger (now + (60 - (now - t0) + 1 / 10)) rest := by
        unfold pruneLedger
        rw [List.dropWhile_cons, if_pos]
        exact decide_eq_true (by linarith)
      refine ⟨?_, ?_, ?_, ?_, ?_⟩
      · rw [hcw2, hdrop]
        have h1 : (pruneLedger (now + (60 - (now - t0) + 1 / 10)) rest).length ≤
            rest.length := (pruneLedger_sublist _ rest).length_le
        have h2 : rest.length + 1 ≤ REQUESTS_PER_MINUTE := by
          simpa using hlen1
        omega
      · rw [hcw2]
        exact pruneLedger_chain hchain1
      · rw [hcw1]
        linarith
      · intro t ht
        rw [hcw2] at ht
        rw [hcw1]
        have : t ∈ t0 :: rest := (pruneLedger_sublist _ _).mem ht
        have := hle t (hmem1 t this)
        linarith
      · intro prev hprev
        cases hnil : pruneLedger (now + (60 - (now - t0) + 1 / 10)) (t0 :: rest) with
        | nil =>
          right
          rw [hcw1]
          have hprev1 : (t0 :: rest).getLast? = some prev := by rw [hlast1, hprev]
          have := pruneLedger_eq_nil hnil prev (mem_of_getLast?_eq hprev1)
          linarith
        | cons y ys =>
          left
          rw [hcw2, pruneLedger_getLast? _ _ (by rw [hnil]; exact List.cons_ne_nil y ys),
            hlast1, hprev]
    · have hcw : ceilingWait now (t0 :: rest) = (now, t0 :: rest) := by
        simp only [ceilingWait]
        rw [if_neg hbr]
      have hcw1 : (ceilingWait now (t0 :: rest)).1 = now := by rw [hcw]
      have hcw2 : (ceilingWait now (t0 :: rest)).2 = t0 :: rest := by rw [hcw]
      refine ⟨?_, ?_, ?_, ?_, ?_⟩
      · rw [hcw2]
        omega
      · rw [hcw2]
        exact hchain1
      · rw [hcw1]
      · intro t ht
        rw [hcw2] at ht
        rw [hcw1]
        exact hle t (hmem1 t ht)
      · intro prev hprev
        left
        rw [hcw2, hlast1, hprev]

theorem spacingWait_eq_none (now2 : ℚ) (l2 : List ℚ) (hg : l2.getLast? = none) :
    spacingWait now2 l2 = now2 := by
  unfold spacingWait
  rw [hg]

theorem spacingWait_eq_some (now2 : ℚ) (l2 : List ℚ) (last0 : ℚ)
    (hg : l2.getLast? = some last0) :
    spacingWait now2 l2 =
      if now2 - last0 < MIN_REQUEST_INTERVAL then
        now2 + (MIN_REQUEST_INTERVAL - (now2 - last0))
      else now2 := by
  unfold spacingWait
  rw [hg]

theorem spacingWait_spec (now2 : ℚ) (l2 : List ℚ) :
    now2 ≤ spacingWait now2 l2
    ∧ (∀ last, l2.getLast? = some last →
        last + MIN_REQUEST_INTERVAL ≤ spacingWait now2 l2) := by
  cases hg : l2.getLast? with
  | none =>
    rw [spacingWait_eq_none now2 l2 hg]
    refine ⟨le_refl _, fun last h => ?_⟩
    cases h
  | some last0 =>
    rw [spacingWait_eq_some now2 l2 last0 hg]
    by_cases hlt : now2 - last0 < MIN_REQUEST_INTERVAL
    · rw [if_pos hlt]
      refine ⟨by linarith, fun last h => ?_⟩
      injection h with h
      subst h
      linarith
    · rw [if_neg hlt]
      refine ⟨le_refl _, fun last h => ?_⟩
      injection h with h
      subst h
      linarith [not_lt.mp hlt]

theorem enforce_rate_limit_spec (now : ℚ) (l : List ℚ)
    (hchain : List.Chain' spacedRel l) (hlen : l.length ≤ REQUESTS_PER_MINUTE)
    (hle : ∀ t ∈ l, t ≤ now) :
    List.Chain' spacedRel (enforce_rate_limit now l).2
    ∧ (enforce_rate_limit now l).2.length ≤ REQUESTS_PER_MINUTE
    ∧ (∀ t ∈ (enforce_rate_limit now l).2, t ≤ (enforce_rate_limit now l).1)
    ∧ (enforce_rate_limit now l).2.getLast? = some (enforce_rate_limit now l).1
    ∧ now ≤ (enforce_rate_limit now l).1
    ∧ (∀ prev, l.getLast? = some prev →
        prev + MIN_REQUEST_INTERVAL ≤ (enforce_rate_limit now l).1) := by
  obtain ⟨hclen, hcchain, hcnow, hcmem, hclast⟩ := ceilingWait_spec now l hchain hlen hle
  obtain ⟨hs1, hs2⟩ := spacingWait_spec (ceilingWait now (pruneLedger now l)).1
    (ceilingWait now (pruneLedger now l)).2
  refine ⟨?_, ?_, ?_, ?_, ?_, ?_⟩
  · show List.Chain' spacedRel ((ceilingWait now (pruneLedger now l)).2 ++ [_])
    rw [List.chain'_append]
    refine ⟨hcchain, List.chain'_singleton _, ?_⟩
    intro x hx y hy
    simp only [List.head?_cons, Option.mem_def, Option.some.injEq] at hy
    subst hy
    exact hs2 x hx
  · show ((ceilingWait now (pruneLedger now l)).2 ++ [_]).length ≤ _
    rw [List.length_append, List.length_singleton]
    exact hclen
  · intro t ht
    rcases List.mem_append.mp ht with ht | ht
    · exact le_trans (hcmem t ht) hs1
    · rw [List.mem_singleton.mp ht]
      exact le_refl _
  · exact List.getLast?_concat _
  · exact le_trans hcnow hs1
  · intro prev hprev
    rcases hclast prev hprev with hlast | hgap
    · exact hs2 prev hlast
    · show prev + MIN_REQUEST_INTERVAL ≤
        spacingWait (ceilingWait now (pruneLedger now l)).1
          (ceilingWait now (pruneLedger now l)).2
      have := interval_lt_sixty
      have h1 : prev + MIN_REQUEST_INTERVAL ≤ (ceilingWait now (pruneLedger now l)).1 := by
        linarith
      exact le_trans h1 hs1

/-- A run of the rate limiter: starting at clock value `start` with ledger
`l`, each list element is the nonnegative delay between the previous
admission and the next call's entry to `_enforce_rate_limit`.  Returns, per
call, the admission timestamp and the number of ledger entries inside the
preceding rolling 60-second window at the moment of admission. -/
def rateLimiterRun (now : ℚ) (l : List ℚ) : List ℚ → List (ℚ × ℕ)
  | [] => []
  | d :: ds =>
    (((enforce_rate_limit (now + d) l).2.filter
        (fun t => decide ((enforce_rate_limit (now + d) l).1 - t ≤ 60))).length,
      rateLimiterRun (enforce_rate_limit (now + d) l).1
        (enforce_rate_limit (now + d) l).2 ds) |>
      fun p => ((enforce_rate_limit (now + d) l).1, p.1) :: p.2

theorem rateLimiterRun_spec (delays : List ℚ) : ∀ (now : ℚ) (l : List ℚ),
    (∀ d ∈ delays, 0 ≤ d) → List.Chain' spacedRel l →
    l.length ≤ REQUESTS_PER_MINUTE → (∀ t ∈ l, t ≤ now) →
    (∀ x ∈ rateLimiterRun now l delays, x.2 ≤ REQUESTS_PER_MINUTE)
    ∧ List.Chain' (fun x y : ℚ × ℕ => x.1 + MIN_REQUEST_INTERVAL ≤ y.1)
        (rateLimiterRun now l delays)
    ∧ (∀ prev, l.getLast? = some prev →
        ∀ hd, (rateLimiterRun now l delays).head? = some hd →
          prev + MIN_REQUEST_INTERVAL ≤ hd.1) := by
  induction delays with
  | nil =>
    intro now l _ _ _ _
    refine ⟨fun x hx => absurd hx (List.not_mem_nil x), List.chain'_nil, ?_⟩
    intro prev _ hd hhd
    cases hhd
  | cons d ds ih =>
    intro now l hd0 hchain hlen hle
    have hd' : 0 ≤ d := hd0 d (List.mem_cons_self d ds)
    have hle' : ∀ t ∈ l, t ≤ now + d := fun t ht => le_trans (hle t ht) (by linarith)
    obtain ⟨echain, elen, emem, elast, enow, eprev⟩ :=
      enforce_rate_limit_spec (now + d) l hchain hlen hle'
    obtain ⟨ihcnt, ihchain, ihhead⟩ := ih (enforce_rate_limit (now + d) l).1
      (enforce_rate_limit (now + d) l).2
      (fun x hx => hd0 x (List.mem_cons_of_mem d hx)) echain elen emem
    have hrun : rateLimiterRun now l (d :: ds) =
        ((enforce_rate_limit (now + d) l).1,
          ((enforce_rate_limit (now + d) l).2.filter
            (fun t => decide ((enforce_rate_limit (now + d) l).1 - t ≤ 60))).length) ::
          rateLimiterRun (enforce_rate_limit (now + d) l).1
            (enforce_rate_limit (now + d) l).2 ds := rfl
    rw [hrun]
    refine ⟨?_, ?_, ?_⟩
    · intro x hx
      rcases List.mem_cons.mp hx with rfl | hx
      · exact le_trans (List.length_filter_le _ _) elen
      · exact ihcnt x hx
    · rw [List.chain'_cons']
      refine ⟨?_, ihchain⟩
      intro y hy
      exact ihhead _ elast y hy
    · intro prev hprev hd hhd
      simp only [List.head?_cons, Option.some.injEq] at hhd
      subst hhd
      exact eprev prev hprev

/-- C8.  Rate-limiter ceiling and spacing under a deterministic clock: in
any run starting from an empty ledger with nonnegative inter-call delays,
at the moment each request is admitted the ledger holds at most
`_REQUESTS_PER_MINUTE` (90) timestamps inside the preceding rolling
60-second window (indeed at most 90 in total, the ceiling branch sleeping
and re-pruning whenever it would be exceeded), and any two consecutive
admission timestamps are at least `60 / 90` seconds apart. -/
theorem rate_limiter_ceiling_and_spacing (start : ℚ) (delays : List ℚ)
    (hd : ∀ d ∈ delays, 0 ≤ d) :
    (∀ x ∈ rateLimiterRun start [] delays, x.2 ≤ REQUESTS_PER_MINUTE)
    ∧ List.Chain' (fun x y : ℚ × ℕ => x.1 + MIN_REQUEST_INTERVAL ≤ y.1)
        (rateLimiterRun start [] delays) := by
  obtain ⟨h1, h2, _⟩ := rateLimiterRun_spec delays start [] hd List.chain'_nil
    (by norm_num [REQUESTS_PER_MINUTE]) (fun t ht => absurd ht (List.not_mem_nil t))
  exact ⟨h1, h2⟩

/-- Witness for C8 at a concrete run: three back-to-back calls from an empty
ledger. -/
theorem rate_limiter_ceiling_and_spacing_witness :
    (∀ d ∈ ([0, 0, 0] : List ℚ), 0 ≤ d)
    ∧ (∀ x ∈ rateLimiterRun 0 [] ([0, 0, 0] : List ℚ), x.2 ≤ REQUESTS_PER_MINUTE) := by
  have hd : ∀ d ∈ ([0, 0, 0] : List ℚ), 0 ≤ d := by
    intro d hd
    rcases List.mem_cons.mp hd with rfl | hd
    · exact le_refl 0
    · rcases List.mem_cons.mp hd with rfl | hd
      · exact le_refl 0
      · rcases List.mem_cons.mp hd with rfl | hd
        · exact le_refl 0
        · exact absurd hd (List.not_mem_nil d)
  exact ⟨hd, (rate_limiter_ceiling_and_spacing 0 [0, 0, 0] hd).1⟩

/-! ## spotify.py: quota circuit breaker (`check_for_rate_limit_error`,
`retry_on_timeout`) and the top-level rate-limit exit handler of sync.py -/

/-- Python `s.lower()`. -/
def strLower (s : String) : String :=
  (s.toList.map Char.toLower).asString

/-- A Python exception as seen by the facade's handlers: a
`requests.exceptions.ReadTimeout`, a spotipy `SpotifyException` (the only
class carrying `http_status`), or any other exception. -/
inductive PyErr where
  | readTimeout (msg : String)
  | spotifyExc (http_status : Int) (msg : String)
  | otherExc (msg : String)
deriving DecidableEq, Repr

/-- Python `str(e)`. -/
def PyErr.msg : PyErr → String
  | PyErr.readTimeout m => m
  | PyErr.spotifyExc _ m => m
  | PyErr.otherExc m => m

/-- Python `e.http_status if hasattr(e, "http_status") else None`. -/
def PyErr.httpStatus : PyErr → Option Int
  | PyErr.spotifyExc s _ => some s
  | _ => none

/-- The spec's definition of an explicit rate-limit signal: HTTP status 429,
or a message containing both "rate" and "limit" after lowercasing. -/
def isRateLimitSignal (e : PyErr) : Bool :=
  (strContains (strLower e.msg) "rate" && strContains (strLower e.msg) "limit") ||
    e.httpStatus == some 429

/-- `spotify.check_for_rate_limit_error`: `some 1` models `exit(1)`, `none`
models returning normally. -/
def check_for_rate_limit_error (e : PyErr) : Option Nat :=
  if strContains (strLower e.msg) "rate" && strContains (strLower e.msg) "limit" then
    some 1
  else if e.httpStatus == some 429 then some 1
  else none

/-- Outcome of a wrapped call: a value, the `return None` fallthrough, a
process exit, or a re-raised exception. -/
inductive CallOutcome (α : Type) where
  | ok (v : α)
  | returnedNone
  | exited (code : Nat)
  | raised (e : PyErr)
deriving DecidableEq, Repr

/-- `spotify.rate_limited_call`: run the underlying call under the rate
limiter; on any exception, both of its except clauses end in
`check_for_rate_limit_error(e)` followed by `raise` — and `exit(1)` raises
SystemExit, which no handler of this layer or of `retry_on_timeout`
catches, so a rate-limit signal terminates the process from here.  The
5-second pause before re-raising a 5xx SpotifyException is a pure time
effect and is elided. -/
def rate_limited_call {α : Type} (result : Except PyErr α) : CallOutcome α :=
  match result with
  | Except.ok v => CallOutcome.ok v
  | Except.error e =>
    match check_for_rate_limit_error e with
    | some c => CallOutcome.exited c
    | none => CallOutcome.raised e

/-- The `for attempt in range(max_retries)` loop of `spotify.retry_on_timeout`
on the program's call path: every decorated function receives `sp` as its
first argument and `spotipy.Spotify` always has `client_credentials_manager`,
so the try-block is `return rate_limited_call(func, *args, **kwargs)`.
`attempt k` is the outcome of the k-th underlying call; `remaining` counts
the attempts still available including the current one.  Also returns the
number of attempts made.  A process exit raised inside `rate_limited_call`
escapes every handler; a re-raised read timeout is retried (after a 30 s
sleep) until the last attempt; every other re-raised exception is checked
once more for the rate-limit signal and then re-raised. -/
def retryGo {α : Type} (attempt : ℕ → Except PyErr α) : ℕ → ℕ → CallOutcome α × ℕ
  | k, 0 => (CallOutcome.returnedNone, k)
  | k, remaining + 1 =>
    match rate_limited_call (attempt k) with
    | CallOutcome.ok v => (CallOutcome.ok v, k + 1)
    | CallOutcome.returnedNone => (CallOutcome.returnedNone, k + 1)
    | CallOutcome.exited c => (CallOutcome.exited c, k + 1)
    | CallOutcome.raised e =>
      match e with
      | PyErr.readTimeout m =>
        if remaining = 0 then (CallOutcome.raised (PyErr.readTimeout m), k + 1)
        else retryGo attempt (k + 1) remaining
      | _ =>
        match check_for_rate_limit_error e with
        | some c => (CallOutcome.exited c, k + 1)
        | none => (CallOutcome.raised e, k + 1)

/-- `spotify.retry_on_timeout` with its default `max_retries=3`. -/
def retry_on_timeout {α : Type} (attempt : ℕ → Except PyErr α) : CallOutcome α × ℕ :=
  retryGo attempt 0 3

/-- The top-level except clauses of sync.py (lines 486-510): a
SpotifyException exits 1 on a rate/limit message or HTTP 429 and is
otherwise re-raised; any other exception exits 1 on a rate/limit message and
is otherwise re-raised. -/
def topLevelHandler (e : PyErr) : CallOutcome Unit :=
  match e with
  | PyErr.spotifyExc s m =>
    if strContains (strLower m) "rate" && strContains (strLower m) "limit" then
      CallOutcome.exited 1
    else if s == 429 then CallOutcome.exited 1
    else CallOutcome.raised e
  | _ =>
    if strContains (strLower e.msg) "rate" &&
        strContains (strLower e.msg) "limit" then CallOutcome.exited 1
    else CallOutcome.raised e

theorem check_for_rate_limit_error_some (e : PyErr) :
    check_for_rate_limit_error e = some 1 ↔ isRateLimitSignal e = true := by
  unfold check_for_rate_limit_error isRateLimitSignal
  by_cases h1 : (strContains (strLower e.msg) "rate" &&
      strContains (strLower e.msg) "limit") = true
  · simp [h1]
  · rw [Bool.not_eq_true] at h1
    by_cases h2 : (e.httpStatus == some 429) = true
    · simp [h1, h2]
    · rw [Bool.not_eq_true] at h2
      simp [h1, h2]

theorem check_for_rate_limit_error_none {e : PyErr}
    (hs : isRateLimitSignal e = false) : check_for_rate_limit_error e = none := by
  unfold isRateLimitSignal at hs
  rw [Bool.or_eq_false_iff] at hs
  unfold check_for_rate_limit_error
  simp [hs.1, hs.2]

/-- C9.  Quota circuit breaker: any error recognizable as an explicit
rate-limit signal — HTTP 429, or a message containing both "rate" and
"limit" — terminates the process with exit code 1 on its first occurrence
and is never retried: `check_for_rate_limit_error` fires exactly on
signals, and it runs inside `rate_limited_call`'s exception handlers before
the retry wrapper's read-timeout handler can intervene (the `exit(1)`
SystemExit escapes every handler), so even a signal-messaged read timeout
exits at once; no non-signal error ever produces this hard stop, through
the wrapper or through the top-level handler of sync.py, which exits 1
exactly on signals and re-raises everything else. -/
theorem rate_limit_circuit_breaker (e : PyErr) :
    (check_for_rate_limit_error e = some 1 ↔ isRateLimitSignal e = true)
    ∧ (∀ (attempt : ℕ → Except PyErr Unit), attempt 0 = Except.error e →
        isRateLimitSignal e = true →
        retry_on_timeout attempt = (CallOutcome.exited 1, 1))
    ∧ (∀ (attempt : ℕ → Except PyErr Unit),
        (∀ k e2, attempt k = Except.error e2 → isRateLimitSignal e2 = false) →
        ∀ c, (retry_on_timeout attempt).1 ≠ CallOutcome.exited c)
    ∧ (isRateLimitSignal e = true → topLevelHandler e = CallOutcome.exited 1)
    ∧ (isRateLimitSignal e = false → topLevelHandler e = CallOutcome.raised e) := by
  refine ⟨check_for_rate_limit_error_some e, ?_, ?_, ?_, ?_⟩
  · intro attempt h0 hsig
    have hc : check_for_rate_limit_error e = some 1 :=
      (check_for_rate_limit_error_some e).mpr hsig
    simp [retry_on_timeout, retryGo, rate_limited_call, h0, hc]
  · intro attempt hall c
    have hgo : ∀ (r k : ℕ), (retryGo attempt k r).1 ≠ CallOutcome.exited c := by
      intro r
      induction r with
      | zero =>
        intro k
        simp [retryGo]
      | succ r ih =>
        intro k
        cases hk : attempt k with
        | ok v =>
          have hstep : retryGo attempt k (r + 1) = (CallOutcome.ok v, k + 1) := by
            simp [retryGo, rate_limited_call, hk]
          rw [hstep]
          simp
        | error e2 =>
          have hc2 : check_for_rate_limit_error e2 = none :=
            check_for_rate_limit_error_none (hall k e2 hk)
          have hrl : rate_limited_call (attempt k) = CallOutcome.raised e2 := by
            simp [rate_limited_call, hk, hc2]
          cases e2 with
          | readTimeout m =>
            by_cases hr : r = 0
            · subst hr
              have hstep : retryGo attempt k 1 =
                  (CallOutcome.raised (PyErr.readTimeout m), k + 1) := by
                simp [retryGo, hrl]
              rw [hstep]
              simp
            · have hstep : retryGo attempt k (r + 1) = retryGo attempt (k + 1) r := by
                simp [retryGo, hrl, hr]
              rw [hstep]
              exact ih (k + 1)
          | spotifyExc s m =>
            have hstep : retryGo attempt k (r + 1) =
                (CallOutcome.raised (PyErr.spotifyExc s m), k + 1) := by
              simp [retryGo, hrl, hc2]
            rw [hstep]
            simp
          | otherExc m =>
            have hstep : retryGo attempt k (r + 1) =
                (CallOutcome.raised (PyErr.otherExc m), k + 1) := by
              simp [retryGo, hrl, hc2]
            rw [hstep]
            simp
    exact hgo 3 0
  · intro hsig
    cases e with
    | readTimeout m =>
      unfold isRateLimitSignal PyErr.httpStatus at hsig
      simp only [PyErr.msg] at hsig
      have h : (strContains (strLower m) "rate" &&
          strContains (strLower m) "limit") = true := by
        rcases Bool.or_eq_true_iff.mp hsig with h | h
        · exact h
        · exact absurd h (by decide)
      simp [topLevelHandler, PyErr.msg, h]
    | spotifyExc s m =>
      unfold isRateLimitSignal PyErr.httpStatus at hsig
      simp only [PyErr.msg] at hsig
      rcases Bool.or_eq_true_iff.mp hsig with h | h
      · simp [topLevelHandler, h]
      · have hs : s = 429 := by simpa using h
        by_cases hm : (strContains (strLower m) "rate" &&
            strContains (strLower m) "limit") = true
        · simp [topLevelHandler, hm]
        · rw [Bool.not_eq_true] at hm
          simp [topLevelHandler, hm, hs]
    | otherExc m =>
      unfold isRateLimitSignal PyErr.httpStatus at hsig
      simp only [PyErr.msg] at hsig
      have h : (strContains (strLower m) "rate" &&
          strContains (strLower m) "limit") = true := by
        rcases Bool.or_eq_true_iff.mp hsig with h | h
        · exact h
        · exact absurd h (by decide)
      simp [topLevelHandler, PyErr.msg, h]
  · intro hsig
    cases e with
    | readTimeout m =>
      unfold isRateLimitSignal PyErr.httpStatus at hsig
      simp only [PyErr.msg] at hsig
      rw [Bool.or_eq_false_iff] at hsig
      simp [topLevelHandler, PyErr.msg, hsig.1]
    | spotifyExc s m =>
      unfold isRateLimitSignal PyErr.httpStatus at hsig
      simp only [PyErr.msg] at hsig
      rw [Bool.or_eq_false_iff] at hsig
      have hs : ¬(s = 429) := by
        intro hh
        rw [hh] at hsig
        simp at hsig
      simp [topLevelHandler, hsig.1, hs]
    | otherExc m =>
      unfold isRateLimitSignal PyErr.httpStatus at hsig
      simp only [PyErr.msg] at hsig
      rw [Bool.or_eq_false_iff] at hsig
      simp [topLevelHandler, PyErr.msg, hsig.1]

/-- Witness for C9 at a concrete input: even a read-timeout error carrying a
rate-limit message exits on the first attempt, because the check inside
`rate_limited_call` runs before the wrapper's timeout handler. -/
theorem rate_limit_circuit_breaker_witness :
    ((fun _ : ℕ => (Except.error (PyErr.readTimeout "rate limit exceeded") :
        Except PyErr Unit)) 0 =
      Except.error (PyErr.readTimeout "rate limit exceeded")
      ∧ isRateLimitSignal (PyErr.readTimeout "rate limit exceeded") = true)
    ∧ retry_on_timeout
        (fun _ : ℕ => (Except.error (PyErr.readTimeout "rate limit exceeded") :
          Except PyErr Unit)) = (CallOutcome.exited 1, 1) := by
  refine ⟨⟨rfl, by decide⟩, ?_⟩
  exact (rate_limit_circuit_breaker (PyErr.readTimeout "rate limit exceeded")).2.1
    (fun _ => Except.error (PyErr.readTimeout "rate limit exceeded")) rfl (by decide)

/-! ## spotify.py: validate_playlist_id -/

/-- A Python value passed as the playlist id: a string, `None`, or any
non-string object (all non-strings fail the `isinstance` check; `None` and
other falsy values additionally fail the truthiness check — either way the
same invalid response results). -/
inductive PyVal where
  | pyStr (s : String)
  | pyNone
  | pyOther
deriving DecidableEq, Repr

/-- The fields `sp.playlist` is asked for:
`id,name,public,owner.id,collaborative`. -/
structure PlaylistInfo where
  id : String
  name : String
  isPublic : Bool
  owner_id : String
  collaborative : Bool
deriving DecidableEq, Repr

/-- Outcome of the remote `sp.playlist` call: a payload, a spotipy
`SpotifyException` with an HTTP status, or any other raised exception. -/
inductive RemoteOutcome where
  | ok (info : PlaylistInfo)
  | spotifyErr (http_status : Int) (msg : String)
  | raised (msg : String)
deriving DecidableEq, Repr

/-- The response record of `validate_playlist_id`: always carries `valid`,
`accessible`, `error` and `playlist_info`. -/
structure PlaylistValidation where
  valid : Bool
  accessible : Bool
  error : Option String
  playlist_info : Option PlaylistInfo
deriving DecidableEq, Repr

/-- `spotify.handle_spotify_exception` for entity type "playlist", with the
`playlist_info = None` the caller adds. -/
def handle_spotify_exception (status : Int) (msg : String) : PlaylistValidation :=
  if status == 404 then
    ⟨false, false, some "Playlist not found or not accessible", none⟩
  else if status == 403 then
    ⟨true, false, some "Playlist exists but is private/not accessible", none⟩
  else if status == 401 then
    ⟨false, false, some "Authentication error - check Spotify credentials", none⟩
  else
    ⟨false, false, some ("Spotify API error: " ++ msg), none⟩

/-- The URI/URL normalization of `validate_playlist_id`:
`split(":")[-1]` for `spotify:playlist:` URIs,
`split("/")[-1].split("?")[0]` for open.spotify.com URLs. -/
def normalizePlaylistId (s : String) : String :=
  if startsWithList s.toList "spotify:playlist:".toList then
    ((splitChar ':' s.toList).getLastD []).asString
  else if startsWithList s.toList "https://open.spotify.com/playlist/".toList then
    (((splitChar '/' s.toList).getLastD []) |> splitChar '?' |>.headD []).asString
  else s

/-- `spotify.validate_playlist_id`: total over every input and every remote
outcome (the inner try/except catches SpotifyException specifically and any
other exception generically, so nothing propagates).  The second component
records the playlist ids looked up remotely. -/
def validate_playlist_id (remote : String → RemoteOutcome) (inp : PyVal) :
    PlaylistValidation × List String :=
  match inp with
  | PyVal.pyNone =>
    (⟨false, false, some "Invalid playlist ID format: ID must be a non-empty string",
      none⟩, [])
  | PyVal.pyOther =>
    (⟨false, false, some "Invalid playlist ID format: ID must be a non-empty string",
      none⟩, [])
  | PyVal.pyStr s =>
    if s = "" then
      (⟨false, false, some "Invalid playlist ID format: ID must be a non-empty string",
        none⟩, [])
    else
      match remote (normalizePlaylistId s) with
      | RemoteOutcome.ok info => (⟨true, true, none, some info⟩, [normalizePlaylistId s])
      | RemoteOutcome.spotifyErr st m =>
        (handle_spotify_exception st m, [normalizePlaylistId s])
      | RemoteOutcome.raised m =>
        (⟨false, false, some ("Unexpected error: " ++ m), none⟩, [normalizePlaylistId s])

/-- C10.  `validate_playlist_id` is total and short-circuits malformed
input: every input yields a full response record and no remote outcome
(including raised exceptions) escapes; non-string or empty input yields
valid=false with no remote request; string input is normalized (URI and URL
forms reduced to the bare id) before the single remote lookup, whose every
outcome maps to the documented valid/accessible/error combination. -/
theorem validate_playlist_id_total (remote : String → RemoteOutcome) (inp : PyVal) :
    ((∀ s, inp = PyVal.pyStr s → s = "") →
      (validate_playlist_id remote inp).1.valid = false
      ∧ (validate_playlist_id remote inp).1.accessible = false
      ∧ (validate_playlist_id remote inp).1.error.isSome = true
      ∧ (validate_playlist_id remote inp).2 = [])
    ∧ (∀ s, inp = PyVal.pyStr s → s ≠ "" →
      (validate_playlist_id remote inp).2 = [normalizePlaylistId s]
      ∧ (∀ info, remote (normalizePlaylistId s) = RemoteOutcome.ok info →
          (validate_playlist_id remote inp).1 = ⟨true, true, none, some info⟩)
      ∧ (∀ st m, remote (normalizePlaylistId s) = RemoteOutcome.spotifyErr st m →
          (validate_playlist_id remote inp).1 = handle_spotify_exception st m
          ∧ (st = 403 → (validate_playlist_id remote inp).1.valid = true
              ∧ (validate_playlist_id remote inp).1.accessible = false)
          ∧ (st ≠ 403 → (validate_playlist_id remote inp).1.valid = false
              ∧ (validate_playlist_id remote inp).1.accessible = false)
          ∧ (validate_playlist_id remote inp).1.error.isSome = true)
      ∧ (∀ m, remote (normalizePlaylistId s) = RemoteOutcome.raised m →
          (validate_playlist_id remote inp).1 =
            ⟨false, false, some ("Unexpected error: " ++ m), none⟩))
    ∧ normalizePlaylistId "spotify:playlist:37iAbc9dQZ" = "37iAbc9dQZ"
    ∧ normalizePlaylistId "https://open.spotify.com/playlist/37iAbc9dQZ?si=xy12" =
        "37iAbc9dQZ"
    ∧ normalizePlaylistId "37iAbc9dQZ" = "37iAbc9dQZ" := by
  refine ⟨?_, ?_, by decide, by decide, by decide⟩
  · intro hstr
    cases inp with
    | pyNone => exact ⟨rfl, rfl, rfl, rfl⟩
    | pyOther => exact ⟨rfl, rfl, rfl, rfl⟩
    | pyStr s =>
      have hs : s = "" := hstr s rfl
      subst hs
      exact ⟨rfl, rfl, rfl, rfl⟩
  · intro s hinp hne
    subst hinp
    have hval : validate_playlist_id remote (PyVal.pyStr s) =
        (match remote (normalizePlaylistId s) with
          | RemoteOutcome.ok info => (⟨true, true, none, some info⟩,
              [normalizePlaylistId s])
          | RemoteOutcome.spotifyErr st m =>
            (handle_spotify_exception st m, [normalizePlaylistId s])
          | RemoteOutcome.raised m =>
            (⟨false, false, some ("Unexpected error: " ++ m), none⟩,
              [normalizePlaylistId s])) := by
      simp only [validate_playlist_id]
      rw [if_neg hne]
    refine ⟨?_, ?_, ?_, ?_⟩
    · rw [hval]
      cases remote (normalizePlaylistId s) <;> rfl
    · intro info hr
      rw [hval, hr]
    · intro st m hr
      rw [hval, hr]
      refine ⟨rfl, ?_, ?_, ?_⟩
      · intro h403
        subst h403
        unfold handle_spotify_exception
        norm_num
      · intro hne403
        unfold handle_spotify_exception
        by_cases h404 : st = 404
        · simp [h404]
        · by_cases h401 : st = 401
          · simp [h401, h404]
          · simp [h404, h401, hne403]
      · unfold handle_spotify_exception
        by_cases h404 : st = 404
        · simp [h404]
        · by_cases h403 : st = 403
          · simp [h403, h404]
          · by_cases h401 : st = 401
            · simp [h401, h404, h403]
            · simp [h404, h403, h401]
    · intro m hr
      rw [hval, hr]

/-- Witness for C10 at a concrete input: a URI-form id with a remote that
raises; the error is absorbed into a response. -/
theorem validate_playlist_id_total_witness :
    (PyVal.pyStr "spotify:playlist:37iAbc9dQZ" = PyVal.pyStr "spotify:playlist:37iAbc9dQZ"
      ∧ "spotify:playlist:37iAbc9dQZ" ≠ ""
      ∧ (fun _ : String => RemoteOutcome.raised "read timed out") "37iAbc9dQZ" =
          RemoteOutcome.raised "read timed out")
    ∧ (validate_playlist_id (fun _ => RemoteOutcome.raised "read timed out")
        (PyVal.pyStr "spotify:playlist:37iAbc9dQZ")).1 =
      ⟨false, false, some ("Unexpected error: " ++ "read timed out"), none⟩ := by
  refine ⟨⟨rfl, by decide, rfl⟩, ?_⟩
  exact ((validate_playlist_id_total (fun _ => RemoteOutcome.raised "read timed out")
    (PyVal.pyStr "spotify:playlist:37iAbc9dQZ")).2.1 "spotify:playlist:37iAbc9dQZ" rfl
    (by decide)).2.2.2 "read timed out" (by decide)

end SpotifySync
